import Mathlib

/-
Verification of the S3/GS3 URL canonicalization core of netcdf-c
(libdispatch/ds3util.c): NC_s3urlrebuild, NC_s3urlprocess, NC_iss3,
NC_s3clone, NC_s3clear, and the endswith helper, shallowly embedded as
executable Lean definitions.  Strings are modelled as Lean Strings
(NULL pointers as Option), lists as Lean Lists, and the two external
configuration resolvers (active profile, default region) as explicit
parameters of type Except Int (Option String).
-/

/-- Error codes from the external netcdf header.  The exact numeric values
are irrelevant to the results below; only their distinctness matters. -/
def NC_NOERR : Int := 0

/-- Malformed-URL error code. -/
def NC_EURL : Int := -114

/-- Memory-allocation error code. -/
def NC_ENOMEM : Int := -61

/-- Object-store (S3) error code. -/
def NC_ES3 : Int := -136

/-- Literal `.amazonaws.com` host suffix (macro AWSHOST in ds3util.c). -/
def AWSHOST : String := ".amazonaws.com"

/-- Literal fixed Google storage host (macro GOOGLEHOST in ds3util.c). -/
def GOOGLEHOST : String := "storage.googleapis.com"

/-- Service kind tag NCS3SVC (external header): unknown, Amazon, Google. -/
inductive NCS3SVC where
  | NCS3UNK
  | NCS3
  | NCS3GS
deriving DecidableEq, Repr

/-- Parsed URL value (external ncuri primitive).  `protocol` is the scheme
(never NULL after parsing); `host`, `path`, `query`, `fragment` may be NULL,
modelled as Option.  `mode` is the external mode-flag list attached to the
URL (consulted by NC_testmode).  `uri` is the rebuilt full string form. -/
structure NCURI where
  protocol : String
  host : Option String
  path : Option String
  query : Option String
  fragment : Option String
  mode : List String
  uri : String
deriving DecidableEq, Repr

/-- Object-store descriptor NCS3INFO: each string field is NULL-able. -/
structure NCS3INFO where
  host : Option String
  region : Option String
  bucket : Option String
  rootkey : Option String
  profile : Option String
  svc : NCS3SVC
deriving DecidableEq, Repr

/-- Split a character list at every occurrence of the delimiter, keeping
empty pieces (they are filtered by NC_split_delim below). -/
def splitList (d : Char) : List Char → List (List Char)
  | [] => [[]]
  | c :: cs =>
    if c = d then [] :: splitList d cs
    else
      match splitList d cs with
      | [] => [[c]]
      | s :: ss => (c :: s) :: ss

/-- Modelled from the spec: the external splitOnDelimiter primitive
(NC_split_delim, declared in ncdispatch.h, defined outside this core).
It splits a string into the ordered sequence of its non-empty
delimiter-separated segments; a NULL or empty string yields no segments,
and empty segments (leading/trailing/doubled delimiters) are not
significant carriers of data. -/
def NC_split_delim (s : Option String) (d : Char) : List String :=
  match s with
  | none => []
  | some str => ((splitList d str.data).filter (fun cs => cs ≠ [])).map (fun cs => String.mk cs)

/-- Modelled from the spec: the external joinWithDelimiter primitive
(NC_join): slash-join an ordered sequence of segments, empty string for
the empty sequence. -/
def NC_join (segs : List String) : String := String.intercalate "/" segs

/-- Embedding of the static helper endswith of ds3util.c: true iff the
last strlen(suffix) characters of s are exactly suffix. -/
def endswith (s suffix : String) : Bool :=
  decide (suffix.data.length ≤ s.data.length) &&
  decide (List.drop (s.data.length - suffix.data.length) s.data = suffix.data)

/-- ASCII lowercasing of a string, for modelling strcasecmp. -/
def strlower (s : String) : String := String.mk (s.data.map Char.toLower)

/-- Case-insensitive string equality, modelling strcasecmp(a,b)==0. -/
def strcaseeq (a b : String) : Bool := strlower a == strlower b

/-- Modelled from the spec: nulldup duplicates a string, mapping NULL to
NULL (allocation assumed to succeed on non-NULL input). -/
def nulldup (s : Option String) : Option String := s

/-- Concatenation of "/" ++ segment over a segment list, as performed by
the path-construction loop of NC_s3urlrebuild (lines 184-187). -/
def slashCat : List String → String
  | [] => ""
  | s :: ss => "/" ++ s ++ slashCat ss

/-- Modelled from the spec: the external ncurirebuild primitive re-derives
the full URL string of a parsed URL from its parts. -/
def ncurirebuild (u : NCURI) : NCURI :=
  { u with uri :=
      u.protocol ++ "://" ++
      (match u.host with | some h => h | none => "") ++
      (match u.path with | some p => p | none => "") ++
      (match u.query with | some q => "?" ++ q | none => "") ++
      (match u.fragment with | some f => "#" ++ f | none => "") }

/-- Host-classification switch of NC_s3urlrebuild (ds3util.c lines 95-143).
Given the scheme, the (non-empty) host string and the host labels, it
returns (bucket-from-host, region-from-host, passthrough-host, service)
or a URL-format error.  The order of the tests is that of the source:
s3 scheme with one label, gs3 scheme with one label, AWS host suffix
(3/4/5 labels), the fixed Google host, otherwise an arbitrary host. -/
def s3HostClassify (protocol h : String) (hostsegments : List String) :
    Except Int (Option String × Option String × Option String × NCS3SVC) :=
  if protocol = "s3" ∧ hostsegments.length = 1 then
    Except.ok (hostsegments.head?, none, none, NCS3SVC.NCS3)
  else if protocol = "gs3" ∧ hostsegments.length = 1 then
    Except.ok (hostsegments.head?, none, none, NCS3SVC.NCS3GS)
  else if endswith h AWSHOST then
    match hostsegments with
    | [_, _, _] => Except.ok (none, none, none, NCS3SVC.NCS3)
    | [l0, l1, _, _] =>
      if strcaseeq l0 "s3" = false then Except.ok (some l0, none, none, NCS3SVC.NCS3)
      else Except.ok (none, some l1, none, NCS3SVC.NCS3)
    | [l0, l1, l2, _, _] =>
      if strcaseeq l1 "s3" = false then Except.error NC_EURL
      else Except.ok (some l0, some l2, none, NCS3SVC.NCS3)
    | _ => Except.error NC_EURL
  else if strcaseeq h GOOGLEHOST then
    Except.ok (none, none, some h, NCS3SVC.NCS3GS)
  else
    Except.ok (none, none, some h, NCS3SVC.NCS3UNK)

/-- Region resolution of NC_s3urlrebuild (lines 145-153): host-extracted
region first, then the prior descriptor region, then the external
default-region resolver, a pair of a status and a possibly-NULL region
(a nonzero status propagates as the error; a NULL region with a zero
status leaves the region unresolved). -/
def regionResolve (region0 : Option String) (s3 : Option NCS3INFO)
    (dflt : Int × Option String) : Except Int (Option String) :=
  match region0 with
  | some r => Except.ok (some r)
  | none =>
    match (match s3 with | some info => nulldup info.region | none => none) with
    | some r => Except.ok (some r)
    | none => if dflt.1 ≠ NC_NOERR then Except.error dflt.1 else Except.ok dflt.2

/-- Bucket resolution of NC_s3urlrebuild (lines 156-161): host-extracted
bucket first, then the first path segment (removed from the sequence),
then the prior descriptor bucket.  Returns the bucket (if any) and the
remaining path segments. -/
def bucketResolve (bucket0 : Option String) (pathsegments : List String)
    (s3 : Option NCS3INFO) : Option String × List String :=
  match bucket0 with
  | some b => (some b, pathsegments)
  | none =>
    match pathsegments with
    | p :: rest => (some p, rest)
    | [] => ((match s3 with | some info => nulldup info.bucket | none => none), [])

/-- Canonical host computation of NC_s3urlrebuild (lines 164-175): for the
Amazon service the host is rebuilt as s3.region.amazonaws.com, for Google
it is the fixed Google host, otherwise the passed-through host. -/
def canonHost (svc : NCS3SVC) (region : String) (host0 : Option String) : String :=
  match svc with
  | NCS3SVC.NCS3 => "s3." ++ region ++ AWSHOST
  | NCS3SVC.NCS3GS => GOOGLEHOST
  | NCS3SVC.NCS3UNK => (match host0 with | some hh => hh | none => "")

/-- Descriptor update of NC_s3urlrebuild (lines 204-208): on success the
resolved bucket, region and service kind are written into the caller's
descriptor when one was supplied. -/
def s3Update (s3 : Option NCS3INFO) (bucket region : String) (svc : NCS3SVC) :
    Option NCS3INFO :=
  match s3 with
  | some info => some { info with bucket := some bucket, region := some region, svc := svc }
  | none => none

/-- Result of NC_s3urlrebuild: the returned status, the value stored in
*newurlp (none unless successful), the final state of the caller's
NCS3INFO (the source writes bucket/region/svc into it only on success),
and the final state of the caller's input URL (the source applies no
setter to it, so it is returned unchanged; this makes the frame condition
explicit). -/
structure RebuildResult where
  stat : Int
  newurl : Option NCURI
  s3 : Option NCS3INFO
  urlFinal : Option NCURI
deriving DecidableEq, Repr

/-- Embedding of NC_s3urlrebuild (ds3util.c lines 52-219).  `dflt` stands
for the result of the external NC_getdefaults3region resolver: the status
it returns and the region it stores through its out parameter. -/
def NC_s3urlrebuild (dflt : Int × Option String) (urlOpt : Option NCURI)
    (s3 : Option NCS3INFO) : RebuildResult :=
  match urlOpt with
  | none => ⟨NC_EURL, none, s3, urlOpt⟩
  | some url =>
    let hostsegments := NC_split_delim url.host '.'
    let pathsegments := NC_split_delim url.path '/'
    match url.host with
    | none => ⟨NC_EURL, none, s3, urlOpt⟩
    | some h =>
      if h = "" then ⟨NC_EURL, none, s3, urlOpt⟩
      else
        match s3HostClassify url.protocol h hostsegments with
        | Except.error e => ⟨e, none, s3, urlOpt⟩
        | Except.ok (bucket0, region0, host0, svc) =>
          match regionResolve region0 s3 dflt with
          | Except.error e => ⟨e, none, s3, urlOpt⟩
          | Except.ok none => ⟨NC_ES3, none, s3, urlOpt⟩
          | Except.ok (some region) =>
            match bucketResolve bucket0 pathsegments s3 with
            | (none, _) => ⟨NC_ES3, none, s3, urlOpt⟩
            | (some bucket, pathsegments1) =>
              let host1 : String := canonHost svc region host0
              let path1 : String := "/" ++ bucket ++ slashCat pathsegments1
              let newurl : NCURI :=
                ncurirebuild { url with protocol := "https", host := some host1, path := some path1 }
              ⟨NC_NOERR, some newurl, s3Update s3 bucket region svc, urlOpt⟩

/-- Result of NC_s3urlprocess: status, the value stored in *newurlp, and
the final state of the caller's descriptor (which the source mutates
field by field, so a failure can leave it partially updated). -/
structure ProcessResult where
  stat : Int
  newurl : Option NCURI
  s3 : Option NCS3INFO
deriving DecidableEq, Repr

/-- Profile defaulting of NC_s3urlprocess (ds3util.c lines 248-250): a
NULL active profile is replaced by the literal profile name "no". -/
def profileOf (po : Option String) : String :=
  match po with
  | some p => p
  | none => "no"

/-- Post-rebuild tail of NC_s3urlprocess (ds3util.c lines 253-263): on a
successful rebuild, copy the canonical host into the descriptor, split
the canonical path, strip its leading (bucket) segment and join the rest
into the rootkey; on a failed rebuild only the status is propagated. -/
def processFinish (r : RebuildResult) : ProcessResult :=
  match r.newurl, r.s3 with
  | some url2, some s3b =>
    if r.stat = NC_NOERR then
      let s3c := { s3b with host := url2.host }
      let pathsegments := NC_split_delim url2.path '/'
      let s3d := { s3c with rootkey := some (NC_join pathsegments.tail) }
      ⟨NC_NOERR, some url2, some s3d⟩
    else ⟨r.stat, none, r.s3⟩
  | _, _ => ⟨r.stat, none, r.s3⟩

/-- Embedding of NC_s3urlprocess (ds3util.c lines 237-269).  `profileRes`
stands for the result of the external NC_getactives3profile resolver (its
status and the profile it reports) and `dflt` for the default-region
resolver result passed through to NC_s3urlrebuild. -/
def NC_s3urlprocess (profileRes : Int × Option String)
    (dflt : Int × Option String) (urlOpt : Option NCURI)
    (s3Opt : Option NCS3INFO) : ProcessResult :=
  match urlOpt, s3Opt with
  | none, _ => ⟨NC_EURL, none, s3Opt⟩
  | _, none => ⟨NC_EURL, none, s3Opt⟩
  | some url, some s3 =>
    if profileRes.1 ≠ NC_NOERR then ⟨profileRes.1, none, some s3⟩
    else
      let profile := profileOf profileRes.2
      let s3a := { s3 with profile := some profile }
      processFinish (NC_s3urlrebuild dflt (some url) (some s3a))

/-- Embedding of NC_testmode (external ncuri primitive): case-insensitive
membership of a tag in the mode-flag list of the URL. -/
def NC_testmode (uri : NCURI) (tag : String) : Bool :=
  uri.mode.any (fun m => strcaseeq m tag)

/-- Embedding of NC_iss3 (ds3util.c lines 306-325). -/
def NC_iss3 (uriOpt : Option NCURI) : Bool :=
  match uriOpt with
  | none => false
  | some uri =>
    if strcaseeq uri.protocol "s3" then true
    else if strcaseeq uri.protocol "gs3" then true
    else if NC_testmode uri "s3" then true
    else if NC_testmode uri "gs3" then true
    else
      match uri.host with
      | some h =>
        if endswith h AWSHOST then true
        else if strcaseeq h GOOGLEHOST then true
        else false
      | none => false

/-- Embedding of NC_s3clear (ds3util.c lines 289-300): release and unset
every string field (the svc tag is not touched). -/
def NC_s3clear (s3 : Option NCS3INFO) : Int × Option NCS3INFO :=
  match s3 with
  | none => (NC_NOERR, none)
  | some info =>
    (NC_NOERR, some { info with host := none, region := none, bucket := none,
                                rootkey := none, profile := none })

/-- Embedding of NC_s3clone (ds3util.c lines 271-287).  `news3pGiven`
records whether the output pointer is non-NULL.  The second component is
the value stored through that pointer: outer none when nothing is stored
(pointer absent, or early NC_ENOMEM return), some v when v is stored.
The fresh descriptor is calloc-zeroed, so its svc tag is NCS3UNK; each
field is nulldup-copied and a NULL copy result is treated as an
allocation failure. -/
def NC_s3clone (s3 : Option NCS3INFO) (news3pGiven : Bool) :
    Int × Option (Option NCS3INFO) :=
  match s3, news3pGiven with
  | some info, true =>
    match nulldup info.host with
    | none => (NC_ENOMEM, none)
    | some h =>
      match nulldup info.region with
      | none => (NC_ENOMEM, none)
      | some r =>
        match nulldup info.bucket with
        | none => (NC_ENOMEM, none)
        | some b =>
          match nulldup info.rootkey with
          | none => (NC_ENOMEM, none)
          | some k =>
            match nulldup info.profile with
            | none => (NC_ENOMEM, none)
            | some p =>
              (NC_NOERR, some (some ⟨some h, some r, some b, some k, some p, NCS3SVC.NCS3UNK⟩))
  | none, true => (NC_NOERR, some none)
  | _, false => (NC_NOERR, none)

/-
Lemmas about the splitting, joining and suffix helpers.
-/

theorem splitList_ne_nil (d : Char) (l : List Char) : splitList d l ≠ [] := by
  induction l with
  | nil => simp [splitList]
  | cons c cs ih =>
    simp only [splitList]
    split
    · simp
    · split
      · simp
      · simp

theorem splitList_no_delim (d : Char) (l : List Char) (h : d ∉ l) : splitList d l = [l] := by
  induction l with
  | nil => rfl
  | cons c cs ih =>
    simp only [List.mem_cons, not_or] at h
    simp only [splitList, ih h.2]
    rw [if_neg (fun hc => h.1 hc.symm)]

theorem splitList_append (d : Char) (l1 l2 : List Char) (h : d ∉ l1) :
    splitList d (l1 ++ d :: l2) = l1 :: splitList d l2 := by
  induction l1 with
  | nil => simp [splitList]
  | cons c cs ih =>
    simp only [List.mem_cons, not_or] at h
    rw [List.cons_append]
    show splitList d (c :: (cs ++ d :: l2)) = (c :: cs) :: splitList d l2
    simp only [splitList]
    rw [if_neg (fun hc => h.1 hc.symm), ih h.2]

theorem splitList_mem (d : Char) (l cs : List Char) (h : cs ∈ splitList d l) :
    d ∉ cs ∧ ∀ c ∈ cs, c ∈ l := by
  induction l generalizing cs with
  | nil =>
    simp [splitList] at h
    subst h
    simp
  | cons a as ih =>
    simp only [splitList] at h
    by_cases hd : a = d
    · rw [if_pos hd] at h
      rcases List.mem_cons.mp h with h1 | h1
      · subst h1
        simp
      · have h2 := ih cs h1
        exact ⟨h2.1, fun c hc => List.mem_cons_of_mem a (h2.2 c hc)⟩
    · rw [if_neg hd] at h
      cases hsp : splitList d as with
      | nil => exact absurd hsp (splitList_ne_nil d as)
      | cons s ss =>
        rw [hsp] at h
        rcases List.mem_cons.mp h with h1 | h1
        · subst h1
          have hs : s ∈ splitList d as := by
            rw [hsp]
            exact List.mem_cons_self s ss
          have h2 := ih s hs
          constructor
          · intro hmem
            rcases List.mem_cons.mp hmem with h3 | h3
            · exact hd h3.symm
            · exact h2.1 h3
          · intro c hc
            rcases List.mem_cons.mp hc with h3 | h3
            · subst h3
              exact List.mem_cons_self c as
            · exact List.mem_cons_of_mem a (h2.2 c h3)
        · have hs : cs ∈ splitList d as := by
            rw [hsp]
            exact List.mem_cons_of_mem s h1
          have h2 := ih cs hs
          exact ⟨h2.1, fun c hc => List.mem_cons_of_mem a (h2.2 c hc)⟩

theorem string_mk_data (s : String) : String.mk s.data = s := rfl

theorem string_ne_empty_iff (s : String) : s ≠ "" ↔ s.data ≠ [] := by
  constructor
  · intro h h2
    exact h (by rw [← string_mk_data s, h2])
  · intro h h2
    exact h (by rw [h2])

theorem NC_split_delim_mem (str : String) (d : Char) (s : String)
    (hs : s ∈ NC_split_delim (some str) d) :
    s ≠ "" ∧ d ∉ s.data ∧ ∀ c ∈ s.data, c ∈ str.data := by
  simp only [NC_split_delim, List.mem_map, List.mem_filter] at hs
  obtain ⟨cs, ⟨hmem, hne⟩, hmk⟩ := hs
  have hdata : s.data = cs := by rw [← hmk]
  have h2 := splitList_mem d str.data cs hmem
  refine ⟨?_, ?_, ?_⟩
  · rw [string_ne_empty_iff, hdata]
    simpa using hne
  · rw [hdata]
    exact h2.1
  · rw [hdata]
    exact h2.2

theorem splitList_slashCat (segs : List String) (bd : List Char) (hb : '/' ∉ bd)
    (hsegs : ∀ s ∈ segs, s ≠ "" ∧ '/' ∉ s.data) :
    splitList '/' (bd ++ (slashCat segs).data) = bd :: segs.map String.data := by
  induction segs generalizing bd with
  | nil =>
    simp only [slashCat, List.map_nil]
    rw [List.append_nil]
    exact splitList_no_delim '/' bd hb
  | cons s ss ih =>
    have hs := hsegs s (List.mem_cons_self s ss)
    have hdata : (slashCat (s :: ss)).data = '/' :: (s.data ++ (slashCat ss).data) := by
      simp [slashCat, String.data_append]
    rw [hdata, splitList_append '/' bd _ hb, List.map_cons]
    rw [ih s.data hs.2 (fun t ht => hsegs t (List.mem_cons_of_mem s ht))]

theorem split_canonPath (b : String) (segs : List String) (hb1 : b ≠ "") (hb2 : '/' ∉ b.data)
    (hsegs : ∀ s ∈ segs, s ≠ "" ∧ '/' ∉ s.data) :
    NC_split_delim (some ("/" ++ b ++ slashCat segs)) '/' = b :: segs := by
  have hdata : ("/" ++ b ++ slashCat segs).data = [] ++ '/' :: (b.data ++ (slashCat segs).data) := by
    simp [String.data_append]
  simp only [NC_split_delim, hdata]
  rw [splitList_append '/' [] _ (by simp), splitList_slashCat segs b.data hb2 hsegs]
  have hbne : b.data ≠ [] := (string_ne_empty_iff b).mp hb1
  rw [List.filter_cons, List.filter_cons]
  simp only [decide_eq_true_eq, if_neg, hbne]
  rw [if_neg (by simp), if_pos (by simpa using hbne)]
  have hrest : (segs.map String.data).filter (fun cs => cs ≠ []) = segs.map String.data := by
    apply List.filter_eq_self.mpr
    intro cs hcs
    obtain ⟨t, ht, rfl⟩ := List.mem_map.mp hcs
    simpa using (string_ne_empty_iff t).mp (hsegs t ht).1
  rw [hrest, List.map_cons, List.map_map]
  have : (fun cs => String.mk cs) ∘ String.data = fun t : String => t := by
    funext t
    rfl
  rw [this]
  simp [string_mk_data]

theorem split_awsHost (l0 l1 : String) (h01 : l0 ≠ "") (h02 : '.' ∉ l0.data)
    (h11 : l1 ≠ "") (h12 : '.' ∉ l1.data) :
    NC_split_delim (some (l0 ++ "." ++ l1 ++ ".amazonaws.com")) '.' = [l0, l1, "amazonaws", "com"] := by
  have hdata : (l0 ++ "." ++ l1 ++ ".amazonaws.com").data =
      l0.data ++ '.' :: (l1.data ++ '.' :: ("amazonaws.com").data) := by
    simp [String.data_append]
  simp only [NC_split_delim, hdata]
  rw [splitList_append '.' l0.data _ h02, splitList_append '.' l1.data _ h12]
  rw [show splitList '.' ("amazonaws.com").data = [("amazonaws").data, ("com").data] from by decide]
  have hb0 : l0.data ≠ [] := (string_ne_empty_iff l0).mp h01
  have hb1 : l1.data ≠ [] := (string_ne_empty_iff l1).mp h11
  rw [List.filter_cons, List.filter_cons, List.filter_cons, List.filter_cons]
  rw [if_pos (by simpa using hb0), if_pos (by simpa using hb1),
      if_pos (by decide), if_pos (by decide)]
  simp [string_mk_data]

theorem endswith_append (s t : String) : endswith (s ++ t) t = true := by
  simp only [endswith, String.data_append, Bool.and_eq_true, decide_eq_true_eq]
  constructor
  · simp
  · rw [List.length_append, Nat.add_sub_cancel]
    exact List.drop_left s.data t.data

theorem endswith_iff (s t : String) : endswith s t = true ↔ t.data <:+ s.data := by
  simp only [endswith, Bool.and_eq_true, decide_eq_true_eq]
  constructor
  · intro h
    refine ⟨List.take (s.data.length - t.data.length) s.data, ?_⟩
    conv_rhs => rw [← List.take_append_drop (s.data.length - t.data.length) s.data]
    rw [h.2]
  · intro h
    obtain ⟨l, hl⟩ := h
    constructor
    · rw [← hl, List.length_append]
      exact Nat.le_add_left _ _
    · rw [← hl, List.length_append, Nat.add_sub_cancel]
      exact List.drop_left l t.data

theorem rebuild_eq (dflt : Int × Option String) (u : NCURI) (s3 : Option NCS3INFO)
    (h : String) (hh : u.host = some h) (hne : h ≠ "") :
    NC_s3urlrebuild dflt (some u) s3 =
      match s3HostClassify u.protocol h (NC_split_delim (some h) '.') with
      | Except.error e => ⟨e, none, s3, some u⟩
      | Except.ok (bucket0, region0, host0, svc) =>
        match regionResolve region0 s3 dflt with
        | Except.error e => ⟨e, none, s3, some u⟩
        | Except.ok none => ⟨NC_ES3, none, s3, some u⟩
        | Except.ok (some region) =>
          match bucketResolve bucket0 (NC_split_delim u.path '/') s3 with
          | (none, _) => ⟨NC_ES3, none, s3, some u⟩
          | (some bucket, pathsegments1) =>
            ⟨NC_NOERR,
             some (ncurirebuild { u with protocol := "https",
                                         host := some (canonHost svc region host0),
                                         path := some ("/" ++ bucket ++ slashCat pathsegments1) }),
             s3Update s3 bucket region svc, some u⟩ := by
  simp only [NC_s3urlrebuild, hh]
  rw [if_neg hne]

theorem strcaseeq_iff (a b : String) : strcaseeq a b = true ↔ strlower a = strlower b := by
  simp [strcaseeq]

theorem NC_testmode_iff (uri : NCURI) (tag : String) :
    NC_testmode uri tag = true ↔ ∃ m ∈ uri.mode, strlower m = strlower tag := by
  simp [NC_testmode, List.any_eq_true, strcaseeq_iff]

/-- Claim C1: for each of the seven documented URL shapes carrying bucket
mybucket, region us-west-2 (supplied by the prior descriptor when the
shape does not encode one) and object path a/b/c, NC_s3urlrebuild succeeds
and returns the canonical path-style URL
https://s3.us-west-2.amazonaws.com/mybucket/a/b/c; for the two Google
shapes the canonical host is instead storage.googleapis.com with the same
path /mybucket/a/b/c. -/
theorem claim_C1_seven_shapes :
    (NC_s3urlrebuild (NC_NOERR, some "us-east-1")
      (some ⟨"https", some "mybucket.s3.us-west-2.amazonaws.com", some "/a/b/c", none, none, [],
             "https://mybucket.s3.us-west-2.amazonaws.com/a/b/c"⟩)
      (some ⟨none, some "us-west-2", none, none, none, NCS3SVC.NCS3UNK⟩)).stat = NC_NOERR ∧
    (NC_s3urlrebuild (NC_NOERR, some "us-east-1")
      (some ⟨"https", some "mybucket.s3.us-west-2.amazonaws.com", some "/a/b/c", none, none, [],
             "https://mybucket.s3.us-west-2.amazonaws.com/a/b/c"⟩)
      (some ⟨none, some "us-west-2", none, none, none, NCS3SVC.NCS3UNK⟩)).newurl =
      some ⟨"https", some "s3.us-west-2.amazonaws.com", some "/mybucket/a/b/c", none, none, [],
            "https://s3.us-west-2.amazonaws.com/mybucket/a/b/c"⟩ ∧
    (NC_s3urlrebuild (NC_NOERR, some "us-east-1")
      (some ⟨"https", some "mybucket.s3.amazonaws.com", some "/a/b/c", none, none, [],
             "https://mybucket.s3.amazonaws.com/a/b/c"⟩)
      (some ⟨none, some "us-west-2", none, none, none, NCS3SVC.NCS3UNK⟩)).stat = NC_NOERR ∧
    (NC_s3urlrebuild (NC_NOERR, some "us-east-1")
      (some ⟨"https", some "mybucket.s3.amazonaws.com", some "/a/b/c", none, none, [],
             "https://mybucket.s3.amazonaws.com/a/b/c"⟩)
      (some ⟨none, some "us-west-2", none, none, none, NCS3SVC.NCS3UNK⟩)).newurl =
      some ⟨"https", some "s3.us-west-2.amazonaws.com", some "/mybucket/a/b/c", none, none, [],
            "https://s3.us-west-2.amazonaws.com/mybucket/a/b/c"⟩ ∧
    (NC_s3urlrebuild (NC_NOERR, some "us-east-1")
      (some ⟨"https", some "s3.us-west-2.amazonaws.com", some "/mybucket/a/b/c", none, none, [],
             "https://s3.us-west-2.amazonaws.com/mybucket/a/b/c"⟩)
      (some ⟨none, some "us-west-2", none, none, none, NCS3SVC.NCS3UNK⟩)).stat = NC_NOERR ∧
    (NC_s3urlrebuild (NC_NOERR, some "us-east-1")
      (some ⟨"https", some "s3.us-west-2.amazonaws.com", some "/mybucket/a/b/c", none, none, [],
             "https://s3.us-west-2.amazonaws.com/mybucket/a/b/c"⟩)
      (some ⟨none, some "us-west-2", none, none, none, NCS3SVC.NCS3UNK⟩)).newurl =
      some ⟨"https", some "s3.us-west-2.amazonaws.com", some "/mybucket/a/b/c", none, none, [],
            "https://s3.us-west-2.amazonaws.com/mybucket/a/b/c"⟩ ∧
    (NC_s3urlrebuild (NC_NOERR, some "us-east-1")
      (some ⟨"https", some "s3.amazonaws.com", some "/mybucket/a/b/c", none, none, [],
             "https://s3.amazonaws.com/mybucket/a/b/c"⟩)
      (some ⟨none, some "us-west-2", none, none, none, NCS3SVC.NCS3UNK⟩)).stat = NC_NOERR ∧
    (NC_s3urlrebuild (NC_NOERR, some "us-east-1")
      (some ⟨"https", some "s3.amazonaws.com", some "/mybucket/a/b/c", none, none, [],
             "https://s3.amazonaws.com/mybucket/a/b/c"⟩)
      (some ⟨none, some "us-west-2", none, none, none, NCS3SVC.NCS3UNK⟩)).newurl =
      some ⟨"https", some "s3.us-west-2.amazonaws.com", some "/mybucket/a/b/c", none, none, [],
            "https://s3.us-west-2.amazonaws.com/mybucket/a/b/c"⟩ ∧
    (NC_s3urlrebuild (NC_NOERR, some "us-east-1")
      (some ⟨"s3", some "mybucket", some "/a/b/c", none, none, [], "s3://mybucket/a/b/c"⟩)
      (some ⟨none, some "us-west-2", none, none, none, NCS3SVC.NCS3UNK⟩)).stat = NC_NOERR ∧
    (NC_s3urlrebuild (NC_NOERR, some "us-east-1")
      (some ⟨"s3", some "mybucket", some "/a/b/c", none, none, [], "s3://mybucket/a/b/c"⟩)
      (some ⟨none, some "us-west-2", none, none, none, NCS3SVC.NCS3UNK⟩)).newurl =
      some ⟨"https", some "s3.us-west-2.amazonaws.com", some "/mybucket/a/b/c", none, none, [],
            "https://s3.us-west-2.amazonaws.com/mybucket/a/b/c"⟩ ∧
    (NC_s3urlrebuild (NC_NOERR, some "us-east-1")
      (some ⟨"https", some "storage.googleapis.com", some "/mybucket/a/b/c", none, none, [],
             "https://storage.googleapis.com/mybucket/a/b/c"⟩)
      (some ⟨none, some "us-west-2", none, none, none, NCS3SVC.NCS3UNK⟩)).stat = NC_NOERR ∧
    (NC_s3urlrebuild (NC_NOERR, some "us-east-1")
      (some ⟨"https", some "storage.googleapis.com", some "/mybucket/a/b/c", none, none, [],
             "https://storage.googleapis.com/mybucket/a/b/c"⟩)
      (some ⟨none, some "us-west-2", none, none, none, NCS3SVC.NCS3UNK⟩)).newurl =
      some ⟨"https", some "storage.googleapis.com", some "/mybucket/a/b/c", none, none, [],
            "https://storage.googleapis.com/mybucket/a/b/c"⟩ ∧
    (NC_s3urlrebuild (NC_NOERR, some "us-east-1")
      (some ⟨"gs3", some "mybucket", some "/a/b/c", none, none, [], "gs3://mybucket/a/b/c"⟩)
      (some ⟨none, some "us-west-2", none, none, none, NCS3SVC.NCS3UNK⟩)).stat = NC_NOERR ∧
    (NC_s3urlrebuild (NC_NOERR, some "us-east-1")
      (some ⟨"gs3", some "mybucket", some "/a/b/c", none, none, [], "gs3://mybucket/a/b/c"⟩)
      (some ⟨none, some "us-west-2", none, none, none, NCS3SVC.NCS3UNK⟩)).newurl =
      some ⟨"https", some "storage.googleapis.com", some "/mybucket/a/b/c", none, none, [],
            "https://storage.googleapis.com/mybucket/a/b/c"⟩ := by
  decide

/-- Claim C10: NC_s3clone returns NC_ENOMEM (storing nothing through the
output pointer) exactly when some string field of the source descriptor is
unset, because the NULL field duplicates to NULL and that NULL is treated
as an allocation failure; a descriptor with all five string fields set
clones successfully (into a calloc-zeroed copy whose svc tag is reset),
and in particular a freshly cleared descriptor can never be cloned. -/
theorem claim_C10_clone_enomem (info : NCS3INFO) :
    (NC_s3clone (some info) true =
      if info.host ≠ none ∧ info.region ≠ none ∧ info.bucket ≠ none ∧
         info.rootkey ≠ none ∧ info.profile ≠ none then
        (NC_NOERR, some (some ⟨info.host, info.region, info.bucket, info.rootkey,
                               info.profile, NCS3SVC.NCS3UNK⟩))
      else (NC_ENOMEM, none)) ∧
    (NC_s3clone ((NC_s3clear (some info)).2) true = (NC_ENOMEM, none)) := by
  obtain ⟨h, r, b, k, p, svc⟩ := info
  constructor
  · cases h <;> cases r <;> cases b <;> cases k <;> cases p <;>
      simp [NC_s3clone, nulldup]
  · simp [NC_s3clear, NC_s3clone, nulldup]

/-- Claim C7: NC_iss3 is a pure predicate with no failure path: a NULL URL
yields false, and otherwise it returns true exactly when one of the checks
succeeds, in order: scheme is s3 (case-insensitive), scheme is gs3, the
mode-flag list contains s3, the mode-flag list contains gs3, the host (if
present) ends with .amazonaws.com, or the host case-insensitively equals
storage.googleapis.com; for https://example.com with no mode flags it
returns false. -/
theorem claim_C7_iss3_predicate :
    NC_iss3 none = false ∧
    (∀ uri : NCURI,
      NC_iss3 (some uri) = true ↔
        (strlower uri.protocol = "s3" ∨ strlower uri.protocol = "gs3" ∨
         (∃ m ∈ uri.mode, strlower m = "s3") ∨ (∃ m ∈ uri.mode, strlower m = "gs3") ∨
         (∃ hh, uri.host = some hh ∧ (".amazonaws.com").data <:+ hh.data) ∨
         (∃ hh, uri.host = some hh ∧ strlower hh = "storage.googleapis.com"))) ∧
    NC_iss3 (some ⟨"https", some "example.com", some "/x", none, none, [],
                   "https://example.com/x"⟩) = false := by
  refine ⟨rfl, ?_, by decide⟩
  intro uri
  have hs3 : strlower "s3" = "s3" := by decide
  have hgs3 : strlower "gs3" = "gs3" := by decide
  have hgoog : strlower GOOGLEHOST = "storage.googleapis.com" := by decide
  simp only [NC_iss3]
  split_ifs with h1 h2 h3 h4
  · rw [strcaseeq_iff, hs3] at h1
    simp [h1]
  · rw [strcaseeq_iff, hgs3] at h2
    simp [h2]
  · rw [NC_testmode_iff, hs3] at h3
    simp [h3]
  · rw [NC_testmode_iff, hgs3] at h4
    simp [h4]
  · rw [strcaseeq_iff, hs3] at h1
    rw [strcaseeq_iff, hgs3] at h2
    rw [NC_testmode_iff, hs3] at h3
    rw [NC_testmode_iff, hgs3] at h4
    cases hhost : uri.host with
    | none => simp [h1, h2, h3, h4, hhost]
    | some hh =>
      show (if endswith hh AWSHOST = true then true
            else if strcaseeq hh GOOGLEHOST = true then true else false) = true ↔ _
      split_ifs with h5 h6
      · rw [endswith_iff] at h5
        simp only [true_iff]
        exact Or.inr (Or.inr (Or.inr (Or.inr (Or.inl ⟨hh, rfl, h5⟩))))
      · rw [strcaseeq_iff, hgoog] at h6
        simp only [true_iff]
        exact Or.inr (Or.inr (Or.inr (Or.inr (Or.inr ⟨hh, rfl, h6⟩))))
      · rw [endswith_iff] at h5
        rw [strcaseeq_iff, hgoog] at h6
        simp only [false_iff, not_or]
        refine ⟨h1, h2, h3, h4, ?_, ?_⟩
        · rintro ⟨hh2, hhh, hsuf⟩
          injection hhh with hhh2
          subst hhh2
          exact h5 hsuf
        · rintro ⟨hh2, hhh, hlow⟩
          injection hhh with hhh2
          subst hhh2
          exact h6 hlow

theorem classify_error_eurl (protocol h : String) (segs : List String) (e : Int)
    (hc : s3HostClassify protocol h segs = Except.error e) : e = NC_EURL := by
  unfold s3HostClassify at hc
  split_ifs at hc
  all_goals
    first
      | exact Except.noConfusion hc
      | (injection hc with h1
         exact h1.symm)
      | (split at hc <;>
          first
            | exact Except.noConfusion hc
            | (injection hc with h1
               exact h1.symm)
            | (split_ifs at hc <;>
                first
                  | exact Except.noConfusion hc
                  | (injection hc with h1
                     exact h1.symm)))

theorem regionResolve_error (region0 : Option String) (s3 : Option NCS3INFO)
    (dflt : Int × Option String) (e : Int)
    (hr : regionResolve region0 s3 dflt = Except.error e) : e = dflt.1 ∧ e ≠ NC_NOERR := by
  cases region0 with
  | some r => exact Except.noConfusion hr
  | none =>
    simp only [regionResolve] at hr
    cases hprior : (match s3 with | some info => nulldup info.region | none => none) with
    | some r =>
      rw [hprior] at hr
      exact Except.noConfusion hr
    | none =>
      rw [hprior] at hr
      by_cases hd : dflt.1 = NC_NOERR
      · rw [if_neg (by simp [hd])] at hr
        exact Except.noConfusion hr
      · rw [if_pos hd] at hr
        injection hr with h1
        exact ⟨h1.symm, h1 ▸ hd⟩

theorem rebuild_host_none (dflt : Int × Option String) (u : NCURI) (s3 : Option NCS3INFO)
    (hh : u.host = none) :
    NC_s3urlrebuild dflt (some u) s3 = ⟨NC_EURL, none, s3, some u⟩ := by
  simp only [NC_s3urlrebuild, hh]

theorem rebuild_host_empty (dflt : Int × Option String) (u : NCURI) (s3 : Option NCS3INFO)
    (hh : u.host = some "") :
    NC_s3urlrebuild dflt (some u) s3 = ⟨NC_EURL, none, s3, some u⟩ := by
  simp [NC_s3urlrebuild, hh]

theorem rebuild_classify_error (dflt : Int × Option String) (u : NCURI) (s3 : Option NCS3INFO)
    (h : String) (e : Int) (hh : u.host = some h) (hne : h ≠ "")
    (hc : s3HostClassify u.protocol h (NC_split_delim (some h) '.') = Except.error e) :
    NC_s3urlrebuild dflt (some u) s3 = ⟨e, none, s3, some u⟩ := by
  rw [rebuild_eq dflt u s3 h hh hne, hc]

theorem rebuild_region_error (dflt : Int × Option String) (u : NCURI) (s3 : Option NCS3INFO)
    (h : String) (bucket0 region0 host0 : Option String) (svc : NCS3SVC) (e : Int)
    (hh : u.host = some h) (hne : h ≠ "")
    (hc : s3HostClassify u.protocol h (NC_split_delim (some h) '.') =
          Except.ok (bucket0, region0, host0, svc))
    (hr : regionResolve region0 s3 dflt = Except.error e) :
    NC_s3urlrebuild dflt (some u) s3 = ⟨e, none, s3, some u⟩ := by
  rw [rebuild_eq dflt u s3 h hh hne, hc]
  simp only [hr]

theorem rebuild_region_none (dflt : Int × Option String) (u : NCURI) (s3 : Option NCS3INFO)
    (h : String) (bucket0 region0 host0 : Option String) (svc : NCS3SVC)
    (hh : u.host = some h) (hne : h ≠ "")
    (hc : s3HostClassify u.protocol h (NC_split_delim (some h) '.') =
          Except.ok (bucket0, region0, host0, svc))
    (hr : regionResolve region0 s3 dflt = Except.ok none) :
    NC_s3urlrebuild dflt (some u) s3 = ⟨NC_ES3, none, s3, some u⟩ := by
  rw [rebuild_eq dflt u s3 h hh hne, hc]
  simp only [hr]

theorem rebuild_bucket_none (dflt : Int × Option String) (u : NCURI) (s3 : Option NCS3INFO)
    (h : String) (bucket0 region0 host0 : Option String) (svc : NCS3SVC) (region : String)
    (rest : List String)
    (hh : u.host = some h) (hne : h ≠ "")
    (hc : s3HostClassify u.protocol h (NC_split_delim (some h) '.') =
          Except.ok (bucket0, region0, host0, svc))
    (hr : regionResolve region0 s3 dflt = Except.ok (some region))
    (hb : bucketResolve bucket0 (NC_split_delim u.path '/') s3 = (none, rest)) :
    NC_s3urlrebuild dflt (some u) s3 = ⟨NC_ES3, none, s3, some u⟩ := by
  rw [rebuild_eq dflt u s3 h hh hne, hc]
  simp only [hr, hb]

theorem rebuild_success (dflt : Int × Option String) (u : NCURI) (s3 : Option NCS3INFO)
    (h : String) (bucket0 region0 host0 : Option String) (svc : NCS3SVC)
    (region bucket : String) (rest : List String)
    (hh : u.host = some h) (hne : h ≠ "")
    (hc : s3HostClassify u.protocol h (NC_split_delim (some h) '.') =
          Except.ok (bucket0, region0, host0, svc))
    (hr : regionResolve region0 s3 dflt = Except.ok (some region))
    (hb : bucketResolve bucket0 (NC_split_delim u.path '/') s3 = (some bucket, rest)) :
    NC_s3urlrebuild dflt (some u) s3 =
      ⟨NC_NOERR,
       some (ncurirebuild { u with protocol := "https",
                                   host := some (canonHost svc region host0),
                                   path := some ("/" ++ bucket ++ slashCat rest) }),
       s3Update s3 bucket region svc, some u⟩ := by
  rw [rebuild_eq dflt u s3 h hh hne, hc]
  simp only [hr, hb]

/-- Claim C6: NC_s3urlrebuild never mutates the caller's URL value: the
embedding returns the input URL unchanged on both success and failure
(urlFinal, reflecting that the source applies no setter to the input),
and the canonical result is produced on a clone of the input whose scheme
is set to https and whose host and path are replaced, so its query,
fragment and mode components are those of the original URL. -/
theorem claim_C6_no_mutation (dflt : Int × Option String) (urlOpt : Option NCURI)
    (s3 : Option NCS3INFO) :
    (NC_s3urlrebuild dflt urlOpt s3).urlFinal = urlOpt ∧
    (∀ u nu, urlOpt = some u → (NC_s3urlrebuild dflt urlOpt s3).newurl = some nu →
      nu.protocol = "https" ∧ nu.query = u.query ∧ nu.fragment = u.fragment ∧
      nu.mode = u.mode) := by
  constructor
  · cases urlOpt with
    | none => rfl
    | some u =>
      cases hh : u.host with
      | none => rw [rebuild_host_none dflt u s3 hh]
      | some h =>
        by_cases hne : h = ""
        · subst hne
          rw [rebuild_host_empty dflt u s3 hh]
        · cases hcl : s3HostClassify u.protocol h (NC_split_delim (some h) '.') with
          | error e => rw [rebuild_classify_error dflt u s3 h e hh hne hcl]
          | ok q =>
            obtain ⟨bucket0, region0, host0, svc⟩ := q
            cases hreg : regionResolve region0 s3 dflt with
            | error e =>
              rw [rebuild_region_error dflt u s3 h bucket0 region0 host0 svc e hh hne hcl hreg]
            | ok ro =>
              cases ro with
              | none =>
                rw [rebuild_region_none dflt u s3 h bucket0 region0 host0 svc hh hne hcl hreg]
              | some region =>
                cases hbk : bucketResolve bucket0 (NC_split_delim u.path '/') s3 with
                | mk bo rest =>
                  cases bo with
                  | none =>
                    rw [rebuild_bucket_none dflt u s3 h bucket0 region0 host0 svc region rest
                          hh hne hcl hreg hbk]
                  | some bucket =>
                    rw [rebuild_success dflt u s3 h bucket0 region0 host0 svc region bucket rest
                          hh hne hcl hreg hbk]
  · intro u nu hu hnu
    subst hu
    cases hh : u.host with
    | none =>
      rw [rebuild_host_none dflt u s3 hh] at hnu
      exact Option.noConfusion hnu
    | some h =>
      by_cases hne : h = ""
      · subst hne
        rw [rebuild_host_empty dflt u s3 hh] at hnu
        exact Option.noConfusion hnu
      · cases hcl : s3HostClassify u.protocol h (NC_split_delim (some h) '.') with
        | error e =>
          rw [rebuild_classify_error dflt u s3 h e hh hne hcl] at hnu
          exact Option.noConfusion hnu
        | ok q =>
          obtain ⟨bucket0, region0, host0, svc⟩ := q
          cases hreg : regionResolve region0 s3 dflt with
          | error e =>
            rw [rebuild_region_error dflt u s3 h bucket0 region0 host0 svc e hh hne hcl hreg] at hnu
            exact Option.noConfusion hnu
          | ok ro =>
            cases ro with
            | none =>
              rw [rebuild_region_none dflt u s3 h bucket0 region0 host0 svc hh hne hcl hreg] at hnu
              exact Option.noConfusion hnu
            | some region =>
              cases hbk : bucketResolve bucket0 (NC_split_delim u.path '/') s3 with
              | mk bo rest =>
                cases bo with
                | none =>
                  rw [rebuild_bucket_none dflt u s3 h bucket0 region0 host0 svc region rest
                        hh hne hcl hreg hbk] at hnu
                  exact Option.noConfusion hnu
                | some bucket =>
                  rw [rebuild_success dflt u s3 h bucket0 region0 host0 svc region bucket rest
                        hh hne hcl hreg hbk] at hnu
                  injection hnu with hnu2
                  subst hnu2
                  exact ⟨rfl, rfl, rfl, rfl⟩

theorem rebuild_success_inv (dflt : Int × Option String) (u : NCURI) (s3 : Option NCS3INFO)
    (hst : (NC_s3urlrebuild dflt (some u) s3).stat = NC_NOERR) :
    ∃ h bucket0 region0 host0 svc region bucket rest,
      u.host = some h ∧ h ≠ "" ∧
      s3HostClassify u.protocol h (NC_split_delim (some h) '.') =
        Except.ok (bucket0, region0, host0, svc) ∧
      regionResolve region0 s3 dflt = Except.ok (some region) ∧
      bucketResolve bucket0 (NC_split_delim u.path '/') s3 = (some bucket, rest) ∧
      NC_s3urlrebuild dflt (some u) s3 =
        ⟨NC_NOERR,
         some (ncurirebuild { u with protocol := "https",
                                     host := some (canonHost svc region host0),
                                     path := some ("/" ++ bucket ++ slashCat rest) }),
         s3Update s3 bucket region svc, some u⟩ := by
  cases hh : u.host with
  | none =>
    rw [rebuild_host_none dflt u s3 hh] at hst
    have h2 : NC_EURL = NC_NOERR := hst
    exact absurd h2 (by decide)
  | some h =>
    by_cases hne : h = ""
    · subst hne
      rw [rebuild_host_empty dflt u s3 hh] at hst
      have h2 : NC_EURL = NC_NOERR := hst
      exact absurd h2 (by decide)
    · cases hcl : s3HostClassify u.protocol h (NC_split_delim (some h) '.') with
      | error e =>
        rw [rebuild_classify_error dflt u s3 h e hh hne hcl] at hst
        rw [classify_error_eurl u.protocol h (NC_split_delim (some h) '.') e hcl] at hst
        have h2 : NC_EURL = NC_NOERR := hst
        exact absurd h2 (by decide)
      | ok q =>
        obtain ⟨bucket0, region0, host0, svc⟩ := q
        cases hreg : regionResolve region0 s3 dflt with
        | error e =>
          rw [rebuild_region_error dflt u s3 h bucket0 region0 host0 svc e hh hne hcl hreg] at hst
          have h2 : e = NC_NOERR := hst
          exact absurd h2 (regionResolve_error region0 s3 dflt e hreg).2
        | ok ro =>
          cases ro with
          | none =>
            rw [rebuild_region_none dflt u s3 h bucket0 region0 host0 svc hh hne hcl hreg] at hst
            have h2 : NC_ES3 = NC_NOERR := hst
            exact absurd h2 (by decide)
          | some region =>
            cases hbk : bucketResolve bucket0 (NC_split_delim u.path '/') s3 with
            | mk bo rest =>
              cases bo with
              | none =>
                rw [rebuild_bucket_none dflt u s3 h bucket0 region0 host0 svc region rest
                      hh hne hcl hreg hbk] at hst
                have h2 : NC_ES3 = NC_NOERR := hst
                exact absurd h2 (by decide)
              | some bucket =>
                exact ⟨h, bucket0, region0, host0, svc, region, bucket, rest, rfl, hne, hcl,
                       hreg, hbk,
                       rebuild_success dflt u s3 h bucket0 region0 host0 svc region bucket rest
                         hh hne hcl hreg hbk⟩

theorem string_append_empty (s : String) : s ++ "" = s := by
  have h : (s ++ "").data = s.data := by
    rw [String.data_append]
    exact List.append_nil s.data
  rw [← string_mk_data (s ++ ""), h, string_mk_data]

/-- Claim C2: NC_s3urlrebuild is idempotent on its own output: an already
canonical path-style URL https://s3.(region).amazonaws.com/(bucket)/(path)
rebuilds successfully to the very same canonical URL, recovering the same
bucket and region into the descriptor. -/
theorem claim_C2_idempotent (r b : String) (segs : List String) (m : List String)
    (info : NCS3INFO) (dflt : Int × Option String)
    (hr1 : r ≠ "") (hr2 : '.' ∉ r.data) (hb1 : b ≠ "") (hb2 : '/' ∉ b.data)
    (hsegs : ∀ s ∈ segs, s ≠ "" ∧ '/' ∉ s.data) :
    NC_s3urlrebuild dflt
      (some ⟨"https", some ("s3." ++ r ++ ".amazonaws.com"), some ("/" ++ b ++ slashCat segs),
             none, none, m,
             "https://" ++ ("s3." ++ r ++ ".amazonaws.com") ++ ("/" ++ b ++ slashCat segs)⟩)
      (some info) =
    ⟨NC_NOERR,
     some ⟨"https", some ("s3." ++ r ++ ".amazonaws.com"), some ("/" ++ b ++ slashCat segs),
           none, none, m,
           "https://" ++ ("s3." ++ r ++ ".amazonaws.com") ++ ("/" ++ b ++ slashCat segs)⟩,
     some { info with bucket := some b, region := some r, svc := NCS3SVC.NCS3 },
     some ⟨"https", some ("s3." ++ r ++ ".amazonaws.com"), some ("/" ++ b ++ slashCat segs),
           none, none, m,
           "https://" ++ ("s3." ++ r ++ ".amazonaws.com") ++ ("/" ++ b ++ slashCat segs)⟩⟩ := by
  have hne : ("s3." ++ r ++ ".amazonaws.com" : String) ≠ "" := by
    rw [string_ne_empty_iff]
    simp [String.data_append]
  have hstr : ("s3" ++ "." ++ r ++ ".amazonaws.com" : String) = "s3." ++ r ++ ".amazonaws.com" := by
    rw [show ("s3" ++ "." : String) = "s3." from by decide]
  have hsp : NC_split_delim (some ("s3." ++ r ++ ".amazonaws.com")) '.' =
      ["s3", r, "amazonaws", "com"] := by
    rw [← hstr]
    exact split_awsHost "s3" r (by decide) (by decide) hr1 hr2
  have hend : endswith ("s3." ++ r ++ ".amazonaws.com") AWSHOST = true := by
    have h3 := endswith_append ("s3." ++ r) ".amazonaws.com"
    simpa [AWSHOST] using h3
  have hcl : s3HostClassify "https" ("s3." ++ r ++ ".amazonaws.com")
      (NC_split_delim (some ("s3." ++ r ++ ".amazonaws.com")) '.') =
      Except.ok (none, some r, none, NCS3SVC.NCS3) := by
    rw [hsp]
    unfold s3HostClassify
    rw [if_neg (by simp), if_neg (by simp), if_pos hend]
    show (if strcaseeq "s3" "s3" = false then
            Except.ok (some "s3", none, none, NCS3SVC.NCS3)
          else Except.ok (none, some r, none, NCS3SVC.NCS3)) = _
    rw [if_neg (by decide)]
  have hpsp : NC_split_delim (some ("/" ++ b ++ slashCat segs)) '/' = b :: segs :=
    split_canonPath b segs hb1 hb2 hsegs
  have hreg : regionResolve (some r) (some info) dflt = Except.ok (some r) := rfl
  have hbk : bucketResolve none
      (NC_split_delim (some ("/" ++ b ++ slashCat segs)) '/') (some info) = (some b, segs) := by
    rw [hpsp]
    rfl
  rw [rebuild_success dflt _ (some info) ("s3." ++ r ++ ".amazonaws.com") none (some r) none
        NCS3SVC.NCS3 r b segs rfl hne hcl hreg hbk]
  simp only [ncurirebuild, s3Update, canonHost]
  have huri : ("https" ++ "://" ++ ("s3." ++ r ++ AWSHOST) ++ ("/" ++ b ++ slashCat segs)
                ++ "" ++ "" : String) =
      "https://" ++ ("s3." ++ r ++ ".amazonaws.com") ++ ("/" ++ b ++ slashCat segs) := by
    rw [string_append_empty, string_append_empty,
        show ("https" ++ "://" : String) = "https://" from by decide]
    rw [show AWSHOST = ".amazonaws.com" from rfl]
  rw [huri]
  rw [show AWSHOST = ".amazonaws.com" from rfl]

/-- Claim C3: for every host with exactly 4 dot-separated labels ending in
.amazonaws.com, NC_s3urlrebuild either treats a first label equal to s3
(case-insensitively) as path-style-with-region — the second label becomes
the region — or treats any other first label as virtual-hosted-without-
region — the first label becomes the bucket; these two readings are
exhaustive for 4-label AWS hosts, so the error clause for a shape fitting
neither has empty extension and no 4-label AWS host fails classification. -/
theorem claim_C3_four_label (l0 l1 : String) (dflt : Int × Option String)
    (h01 : l0 ≠ "") (h02 : '.' ∉ l0.data) (h11 : l1 ≠ "") (h12 : '.' ∉ l1.data) :
    (strcaseeq l0 "s3" = true →
      (NC_s3urlrebuild dflt
        (some ⟨"https", some (l0 ++ "." ++ l1 ++ ".amazonaws.com"), some "/a/b/c",
               none, none, [], ""⟩)
        (some ⟨none, some "us-west-2", some "bk", none, none, NCS3SVC.NCS3UNK⟩)).stat =
          NC_NOERR ∧
      ((NC_s3urlrebuild dflt
        (some ⟨"https", some (l0 ++ "." ++ l1 ++ ".amazonaws.com"), some "/a/b/c",
               none, none, [], ""⟩)
        (some ⟨none, some "us-west-2", some "bk", none, none, NCS3SVC.NCS3UNK⟩)).newurl.map
          NCURI.host) = some (some ("s3." ++ l1 ++ ".amazonaws.com")) ∧
      (NC_s3urlrebuild dflt
        (some ⟨"https", some (l0 ++ "." ++ l1 ++ ".amazonaws.com"), some "/a/b/c",
               none, none, [], ""⟩)
        (some ⟨none, some "us-west-2", some "bk", none, none, NCS3SVC.NCS3UNK⟩)).s3 =
          some ⟨none, some l1, some "a", none, none, NCS3SVC.NCS3⟩) ∧
    (strcaseeq l0 "s3" = false →
      (NC_s3urlrebuild dflt
        (some ⟨"https", some (l0 ++ "." ++ l1 ++ ".amazonaws.com"), some "/a/b/c",
               none, none, [], ""⟩)
        (some ⟨none, some "us-west-2", some "bk", none, none, NCS3SVC.NCS3UNK⟩)).stat =
          NC_NOERR ∧
      ((NC_s3urlrebuild dflt
        (some ⟨"https", some (l0 ++ "." ++ l1 ++ ".amazonaws.com"), some "/a/b/c",
               none, none, [], ""⟩)
        (some ⟨none, some "us-west-2", some "bk", none, none, NCS3SVC.NCS3UNK⟩)).newurl.map
          NCURI.host) = some (some ("s3.us-west-2.amazonaws.com")) ∧
      (NC_s3urlrebuild dflt
        (some ⟨"https", some (l0 ++ "." ++ l1 ++ ".amazonaws.com"), some "/a/b/c",
               none, none, [], ""⟩)
        (some ⟨none, some "us-west-2", some "bk", none, none, NCS3SVC.NCS3UNK⟩)).s3 =
          some ⟨none, some "us-west-2", some l0, none, none, NCS3SVC.NCS3⟩) := by
  have hne : (l0 ++ "." ++ l1 ++ ".amazonaws.com" : String) ≠ "" := by
    rw [string_ne_empty_iff]
    simp [String.data_append]
  have hsp : NC_split_delim (some (l0 ++ "." ++ l1 ++ ".amazonaws.com")) '.' =
      [l0, l1, "amazonaws", "com"] := split_awsHost l0 l1 h01 h02 h11 h12
  have hend : endswith (l0 ++ "." ++ l1 ++ ".amazonaws.com") AWSHOST = true := by
    have h3 := endswith_append (l0 ++ "." ++ l1) ".amazonaws.com"
    simpa [AWSHOST] using h3
  have hpsp : NC_split_delim (some "/a/b/c") '/' = ["a", "b", "c"] := by decide
  constructor
  · intro hcase
    have hcl : s3HostClassify "https" (l0 ++ "." ++ l1 ++ ".amazonaws.com")
        (NC_split_delim (some (l0 ++ "." ++ l1 ++ ".amazonaws.com")) '.') =
        Except.ok (none, some l1, none, NCS3SVC.NCS3) := by
      rw [hsp]
      unfold s3HostClassify
      rw [if_neg (by simp), if_neg (by simp), if_pos hend]
      show (if strcaseeq l0 "s3" = false then
              Except.ok (some l0, none, none, NCS3SVC.NCS3)
            else Except.ok (none, some l1, none, NCS3SVC.NCS3)) = _
      rw [hcase]
      rw [if_neg (by decide)]
    have hreg : regionResolve (some l1)
        (some (⟨none, some "us-west-2", some "bk", none, none, NCS3SVC.NCS3UNK⟩ : NCS3INFO))
        dflt = Except.ok (some l1) := rfl
    have hbk : bucketResolve none (NC_split_delim (some "/a/b/c") '/')
        (some (⟨none, some "us-west-2", some "bk", none, none, NCS3SVC.NCS3UNK⟩ : NCS3INFO)) =
        (some "a", ["b", "c"]) := by
      rw [hpsp]
      rfl
    rw [rebuild_success dflt _ _ (l0 ++ "." ++ l1 ++ ".amazonaws.com") none (some l1) none
          NCS3SVC.NCS3 l1 "a" ["b", "c"] rfl hne hcl hreg hbk]
    exact ⟨rfl, rfl, rfl⟩
  · intro hcase
    have hcl : s3HostClassify "https" (l0 ++ "." ++ l1 ++ ".amazonaws.com")
        (NC_split_delim (some (l0 ++ "." ++ l1 ++ ".amazonaws.com")) '.') =
        Except.ok (some l0, none, none, NCS3SVC.NCS3) := by
      rw [hsp]
      unfold s3HostClassify
      rw [if_neg (by simp), if_neg (by simp), if_pos hend]
      show (if strcaseeq l0 "s3" = false then
              Except.ok (some l0, none, none, NCS3SVC.NCS3)
            else Except.ok (none, some l1, none, NCS3SVC.NCS3)) = _
      rw [hcase]
      rw [if_pos rfl]
    have hreg : regionResolve none
        (some (⟨none, some "us-west-2", some "bk", none, none, NCS3SVC.NCS3UNK⟩ : NCS3INFO))
        dflt = Except.ok (some "us-west-2") := rfl
    have hbk : bucketResolve (some l0) (NC_split_delim (some "/a/b/c") '/')
        (some (⟨none, some "us-west-2", some "bk", none, none, NCS3SVC.NCS3UNK⟩ : NCS3INFO)) =
        (some l0, ["a", "b", "c"]) := by
      rw [hpsp]
      rfl
    rw [rebuild_success dflt _ _ (l0 ++ "." ++ l1 ++ ".amazonaws.com") (some l0) none none
          NCS3SVC.NCS3 "us-west-2" l0 ["a", "b", "c"] rfl hne hcl hreg hbk]
    refine ⟨rfl, ?_, rfl⟩
    simp [ncurirebuild, canonHost]
    decide

/-- Claim C4: NC_s3urlrebuild resolves the region in strict priority
order: a region extracted from the host wins; otherwise the prior
descriptor's region when set; otherwise the process-wide default-region
resolver's result; and when none of the three yields a region the call
fails with the fatal object-store error NC_ES3 and no canonical URL is
produced (a failing resolver propagates its own status). -/
theorem claim_C4_region_priority (dflt : Int × Option String) (u : NCURI) (info : NCS3INFO)
    (h : String) (bucket0 region0 host0 : Option String) (svc : NCS3SVC)
    (hh : u.host = some h) (hne : h ≠ "")
    (hcl : s3HostClassify u.protocol h (NC_split_delim (some h) '.') =
           Except.ok (bucket0, region0, host0, svc)) :
    (∀ rr, region0 = some rr →
       (NC_s3urlrebuild dflt (some u) (some info)).stat = NC_NOERR →
       ∃ i2, (NC_s3urlrebuild dflt (some u) (some info)).s3 = some i2 ∧
             i2.region = some rr) ∧
    (∀ pr, region0 = none → info.region = some pr →
       (NC_s3urlrebuild dflt (some u) (some info)).stat = NC_NOERR →
       ∃ i2, (NC_s3urlrebuild dflt (some u) (some info)).s3 = some i2 ∧
             i2.region = some pr) ∧
    (∀ dr, region0 = none → info.region = none → dflt = (NC_NOERR, some dr) →
       (NC_s3urlrebuild dflt (some u) (some info)).stat = NC_NOERR →
       ∃ i2, (NC_s3urlrebuild dflt (some u) (some info)).s3 = some i2 ∧
             i2.region = some dr) ∧
    (region0 = none → info.region = none → dflt = (NC_NOERR, none) →
       NC_s3urlrebuild dflt (some u) (some info) = ⟨NC_ES3, none, some info, some u⟩) ∧
    (region0 = none → info.region = none → dflt.1 ≠ NC_NOERR →
       NC_s3urlrebuild dflt (some u) (some info) = ⟨dflt.1, none, some info, some u⟩) := by
  have hinv : ∀ rr, regionResolve region0 (some info) dflt = Except.ok (some rr) →
      (NC_s3urlrebuild dflt (some u) (some info)).stat = NC_NOERR →
      ∃ i2, (NC_s3urlrebuild dflt (some u) (some info)).s3 = some i2 ∧
            i2.region = some rr := by
    intro rr hreg hst
    obtain ⟨h2, b02, r02, h02, svc2, region2, bucket2, rest2, hh2, hne2, hcl2, hreg2, hbk2,
            hres⟩ := rebuild_success_inv dflt u (some info) hst
    rw [hh] at hh2
    injection hh2 with he
    subst he
    rw [hcl] at hcl2
    injection hcl2 with hq
    injection hq with he1 hq2
    injection hq2 with he2 hq3
    injection hq3 with he3 he4
    subst he1
    subst he2
    subst he3
    subst he4
    rw [hreg] at hreg2
    injection hreg2 with hq4
    injection hq4 with he5
    subst he5
    refine ⟨{ info with bucket := some bucket2, region := some rr, svc := svc }, ?_, rfl⟩
    rw [hres]
    rfl
  refine ⟨?_, ?_, ?_, ?_, ?_⟩
  · intro rr hr0 hst
    exact hinv rr (by rw [hr0]; rfl) hst
  · intro pr hr0 hpr hst
    subst hr0
    exact hinv pr (by simp [regionResolve, nulldup, hpr]) hst
  · intro dr hr0 hpr hdflt hst
    subst hr0
    subst hdflt
    exact hinv dr (by simp [regionResolve, nulldup, hpr]) hst
  · intro hr0 hpr hdflt
    subst hr0
    subst hdflt
    have hreg : regionResolve none (some info) (NC_NOERR, none) = Except.ok none := by
      simp [regionResolve, nulldup, hpr]
    exact rebuild_region_none (NC_NOERR, none) u (some info) h bucket0 none host0 svc
      hh hne hcl hreg
  · intro hr0 hpr hd
    subst hr0
    have hreg : regionResolve none (some info) dflt = Except.error dflt.1 := by
      simp [regionResolve, nulldup, hpr, hd]
    exact rebuild_region_error dflt u (some info) h bucket0 none host0 svc dflt.1
      hh hne hcl hreg

/-- Claim C5: NC_s3urlrebuild resolves the bucket in strict priority
order: a bucket extracted from the host wins (the path is left intact);
otherwise the first path segment, which is removed from the path-segment
sequence before the canonical path is rebuilt; otherwise the prior
descriptor's bucket; and when none of the three yields a bucket the call
fails with the fatal object-store error NC_ES3 and no canonical URL is
produced. -/
theorem claim_C5_bucket_priority (dflt : Int × Option String) (u : NCURI) (info : NCS3INFO)
    (h : String) (bucket0 region0 host0 : Option String) (svc : NCS3SVC) (reg : String)
    (hh : u.host = some h) (hne : h ≠ "")
    (hcl : s3HostClassify u.protocol h (NC_split_delim (some h) '.') =
           Except.ok (bucket0, region0, host0, svc))
    (hreg : regionResolve region0 (some info) dflt = Except.ok (some reg)) :
    (∀ bb, bucket0 = some bb →
       NC_s3urlrebuild dflt (some u) (some info) =
         ⟨NC_NOERR,
          some (ncurirebuild { u with protocol := "https",
                                      host := some (canonHost svc reg host0),
                                      path := some ("/" ++ bb ++
                                                    slashCat (NC_split_delim u.path '/')) }),
          some { info with bucket := some bb, region := some reg, svc := svc }, some u⟩) ∧
    (∀ p rest, bucket0 = none → NC_split_delim u.path '/' = p :: rest →
       NC_s3urlrebuild dflt (some u) (some info) =
         ⟨NC_NOERR,
          some (ncurirebuild { u with protocol := "https",
                                      host := some (canonHost svc reg host0),
                                      path := some ("/" ++ p ++ slashCat rest) }),
          some { info with bucket := some p, region := some reg, svc := svc }, some u⟩) ∧
    (∀ pb, bucket0 = none → NC_split_delim u.path '/' = [] → info.bucket = some pb →
       NC_s3urlrebuild dflt (some u) (some info) =
         ⟨NC_NOERR,
          some (ncurirebuild { u with protocol := "https",
                                      host := some (canonHost svc reg host0),
                                      path := some ("/" ++ pb ++ slashCat []) }),
          some { info with bucket := some pb, region := some reg, svc := svc }, some u⟩) ∧
    (bucket0 = none → NC_split_delim u.path '/' = [] → info.bucket = none →
       NC_s3urlrebuild dflt (some u) (some info) = ⟨NC_ES3, none, some info, some u⟩) := by
  refine ⟨?_, ?_, ?_, ?_⟩
  · intro bb hb0
    subst hb0
    rw [rebuild_success dflt u (some info) h (some bb) region0 host0 svc reg bb
          (NC_split_delim u.path '/') hh hne hcl hreg rfl]
    rfl
  · intro p rest hb0 hsplit
    subst hb0
    have hbk : bucketResolve none (NC_split_delim u.path '/') (some info) = (some p, rest) := by
      rw [hsplit]
      rfl
    rw [rebuild_success dflt u (some info) h none region0 host0 svc reg p rest
          hh hne hcl hreg hbk]
    rfl
  · intro pb hb0 hsplit hib
    subst hb0
    have hbk : bucketResolve none (NC_split_delim u.path '/') (some info) = (some pb, []) := by
      rw [hsplit]
      simp [bucketResolve, nulldup, hib]
    rw [rebuild_success dflt u (some info) h none region0 host0 svc reg pb []
          hh hne hcl hreg hbk]
    rfl
  · intro hb0 hsplit hib
    subst hb0
    have hbk : bucketResolve none (NC_split_delim u.path '/') (some info) = (none, []) := by
      rw [hsplit]
      simp [bucketResolve, nulldup, hib]
    exact rebuild_bucket_none dflt u (some info) h none region0 host0 svc reg []
      hh hne hcl hreg hbk

theorem rebuild_cases (dflt : Int × Option String) (u : NCURI) (s3 : Option NCS3INFO) :
    (NC_s3urlrebuild dflt (some u) s3).stat = NC_NOERR ∨
    NC_s3urlrebuild dflt (some u) s3 =
      ⟨(NC_s3urlrebuild dflt (some u) s3).stat, none, s3, some u⟩ := by
  cases hh : u.host with
  | none =>
    right
    rw [rebuild_host_none dflt u s3 hh]
  | some h =>
    by_cases hne : h = ""
    · subst hne
      right
      rw [rebuild_host_empty dflt u s3 hh]
    · cases hcl : s3HostClassify u.protocol h (NC_split_delim (some h) '.') with
      | error e =>
        right
        rw [rebuild_classify_error dflt u s3 h e hh hne hcl]
      | ok q =>
        obtain ⟨bucket0, region0, host0, svc⟩ := q
        cases hreg : regionResolve region0 s3 dflt with
        | error e =>
          right
          rw [rebuild_region_error dflt u s3 h bucket0 region0 host0 svc e hh hne hcl hreg]
        | ok ro =>
          cases ro with
          | none =>
            right
            rw [rebuild_region_none dflt u s3 h bucket0 region0 host0 svc hh hne hcl hreg]
          | some region =>
            cases hbk : bucketResolve bucket0 (NC_split_delim u.path '/') s3 with
            | mk bo rest =>
              cases bo with
              | none =>
                right
                rw [rebuild_bucket_none dflt u s3 h bucket0 region0 host0 svc region rest
                      hh hne hcl hreg hbk]
              | some bucket =>
                left
                rw [rebuild_success dflt u s3 h bucket0 region0 host0 svc region bucket rest
                      hh hne hcl hreg hbk]

/-- Claim C9 counterexample: on a malformed AWS host (six labels before the
amazonaws.com suffix) NC_s3urlprocess fails with NC_EURL, yet the caller's
descriptor has been observably updated before the failing step: its
profile field now carries the resolved profile, so a failing run does
leave a partially-updated descriptor behind. -/
theorem claim_C9_counterexample :
    (NC_s3urlprocess (NC_NOERR, some "p") (NC_NOERR, some "us-east-1")
      (some ⟨"https", some "a.b.c.d.e.amazonaws.com", some "/x", none, none, [],
             "https://a.b.c.d.e.amazonaws.com/x"⟩)
      (some ⟨none, none, none, none, none, NCS3SVC.NCS3UNK⟩)).stat = NC_EURL ∧
    NC_EURL ≠ NC_NOERR ∧
    (NC_s3urlprocess (NC_NOERR, some "p") (NC_NOERR, some "us-east-1")
      (some ⟨"https", some "a.b.c.d.e.amazonaws.com", some "/x", none, none, [],
             "https://a.b.c.d.e.amazonaws.com/x"⟩)
      (some ⟨none, none, none, none, none, NCS3SVC.NCS3UNK⟩)).s3 =
      some ⟨none, none, none, none, some "p", NCS3SVC.NCS3UNK⟩ ∧
    (NC_s3urlprocess (NC_NOERR, some "p") (NC_NOERR, some "us-east-1")
      (some ⟨"https", some "a.b.c.d.e.amazonaws.com", some "/x", none, none, [],
             "https://a.b.c.d.e.amazonaws.com/x"⟩)
      (some ⟨none, none, none, none, none, NCS3SVC.NCS3UNK⟩)).s3 ≠
      some ⟨none, none, none, none, none, NCS3SVC.NCS3UNK⟩ := by
  refine ⟨by decide, by decide, by decide, by decide⟩

/-- Claim C9 (amended): when NC_s3urlprocess fails, only the error status
is returned and no canonical URL is surfaced; the caller's descriptor is
unchanged except that its profile field may already have been set when
the failure occurs in the rebuild step. -/
theorem process_eq (profileRes dflt : Int × Option String) (url : NCURI) (s3 : NCS3INFO)
    (hpr : profileRes.1 = NC_NOERR) :
    NC_s3urlprocess profileRes dflt (some url) (some s3) =
      processFinish (NC_s3urlrebuild dflt (some url)
        (some { s3 with profile := some (profileOf profileRes.2) })) := by
  simp only [NC_s3urlprocess]
  rw [if_neg (fun hcon => hcon hpr)]

/-- Claim C9 (amended): when NC_s3urlprocess fails, only the error status
is returned and no canonical URL is surfaced; the caller's descriptor is
unchanged except that its profile field may already have been set when
the failure occurs in the rebuild step. -/
theorem claim_C9_failure_no_url (profileRes dflt : Int × Option String)
    (urlOpt : Option NCURI) (s3Opt : Option NCS3INFO)
    (hfail : (NC_s3urlprocess profileRes dflt urlOpt s3Opt).stat ≠ NC_NOERR) :
    (NC_s3urlprocess profileRes dflt urlOpt s3Opt).newurl = none ∧
    ((NC_s3urlprocess profileRes dflt urlOpt s3Opt).s3 = s3Opt ∨
     (∃ info p, s3Opt = some info ∧
        (NC_s3urlprocess profileRes dflt urlOpt s3Opt).s3 =
          some { info with profile := some p })) := by
  cases urlOpt with
  | none =>
    cases s3Opt with
    | none => exact ⟨rfl, Or.inl rfl⟩
    | some s3 => exact ⟨rfl, Or.inl rfl⟩
  | some url =>
    cases s3Opt with
    | none => exact ⟨rfl, Or.inl rfl⟩
    | some s3 =>
      by_cases hpr : profileRes.1 = NC_NOERR
      · rw [process_eq profileRes dflt url s3 hpr] at hfail ⊢
        rcases rebuild_cases dflt url
          (some { s3 with profile := some (profileOf profileRes.2) }) with hs | hf
        · exfalso
          obtain ⟨h2, b02, r02, h02, svc2, region2, bucket2, rest2, hh2, hne2, hcl2, hreg2,
                  hbk2, hres⟩ := rebuild_success_inv dflt url _ hs
          rw [hres] at hfail
          exact hfail rfl
        · rw [hf]
          exact ⟨rfl, Or.inr ⟨s3, _, rfl, rfl⟩⟩
      · have hpr2 : profileRes.1 ≠ NC_NOERR := hpr
        have hres : NC_s3urlprocess profileRes dflt (some url) (some s3) =
            ⟨profileRes.1, none, some s3⟩ := by
          simp only [NC_s3urlprocess]
          rw [if_pos hpr2]
        rw [hres]
        exact ⟨rfl, Or.inl rfl⟩

theorem NC_split_delim_mem_opt (op : Option String) (d : Char) (s : String)
    (hs : s ∈ NC_split_delim op d) : s ≠ "" ∧ d ∉ s.data := by
  cases op with
  | none => simp [NC_split_delim] at hs
  | some str =>
    have h2 := NC_split_delim_mem str d s hs
    exact ⟨h2.1, h2.2.1⟩

theorem NC_split_delim_mem_chars (str : String) (d : Char) (s : String)
    (hs : s ∈ NC_split_delim (some str) d) : ∀ c ∈ s.data, c ∈ str.data :=
  (NC_split_delim_mem str d s hs).2.2

theorem classify_ok_inv (protocol h : String) (segs : List String)
    (b0 r0 h0 : Option String) (svc : NCS3SVC)
    (hc : s3HostClassify protocol h segs = Except.ok (b0, r0, h0, svc)) :
    (∀ rr, r0 = some rr → rr ∈ segs) ∧
    (∀ bb, b0 = some bb → bb ∈ segs) ∧
    (svc = NCS3SVC.NCS3UNK → h0 = some h) := by
  unfold s3HostClassify at hc
  split_ifs at hc
  · injection hc with hq
    injection hq with he1 hq2
    injection hq2 with he2 hq3
    injection hq3 with he3 he4
    subst he1
    subst he2
    subst he3
    subst he4
    refine ⟨fun rr hrr => Option.noConfusion hrr, ?_, fun hsvc => NCS3SVC.noConfusion hsvc⟩
    intro bb hbb
    cases segs with
    | nil => exact Option.noConfusion hbb
    | cons a t =>
      injection hbb with he
      subst he
      exact List.mem_cons_self _ _
  · injection hc with hq
    injection hq with he1 hq2
    injection hq2 with he2 hq3
    injection hq3 with he3 he4
    subst he1
    subst he2
    subst he3
    subst he4
    refine ⟨fun rr hrr => Option.noConfusion hrr, ?_, fun hsvc => NCS3SVC.noConfusion hsvc⟩
    intro bb hbb
    cases segs with
    | nil => exact Option.noConfusion hbb
    | cons a t =>
      injection hbb with he
      subst he
      exact List.mem_cons_self _ _
  · cases segs with
    | nil => exact Except.noConfusion hc
    | cons a t =>
      cases t with
      | nil => exact Except.noConfusion hc
      | cons b t2 =>
        cases t2 with
        | nil => exact Except.noConfusion hc
        | cons c t3 =>
          cases t3 with
          | nil =>
            injection hc with hq
            injection hq with he1 hq2
            injection hq2 with he2 hq3
            injection hq3 with he3 he4
            subst he1
            subst he2
            subst he3
            subst he4
            exact ⟨fun rr hrr => Option.noConfusion hrr,
                   fun bb hbb => Option.noConfusion hbb,
                   fun hsvc => NCS3SVC.noConfusion hsvc⟩
          | cons d t4 =>
            cases t4 with
            | nil =>
              have hc2 : (if strcaseeq a "s3" = false then
                            Except.ok (some a, none, none, NCS3SVC.NCS3)
                          else Except.ok (none, some b, none, NCS3SVC.NCS3)) =
                  Except.ok (b0, r0, h0, svc) := hc
              split_ifs at hc2
              · injection hc2 with hq
                injection hq with he1 hq2
                injection hq2 with he2 hq3
                injection hq3 with he3 he4
                subst he1
                subst he2
                subst he3
                subst he4
                refine ⟨fun rr hrr => Option.noConfusion hrr, ?_,
                        fun hsvc => NCS3SVC.noConfusion hsvc⟩
                intro bb hbb
                injection hbb with he
                subst he
                exact List.mem_cons_self _ _
              · injection hc2 with hq
                injection hq with he1 hq2
                injection hq2 with he2 hq3
                injection hq3 with he3 he4
                subst he1
                subst he2
                subst he3
                subst he4
                refine ⟨?_, fun bb hbb => Option.noConfusion hbb,
                        fun hsvc => NCS3SVC.noConfusion hsvc⟩
                intro rr hrr
                injection hrr with he
                subst he
                exact List.mem_cons_of_mem a (List.mem_cons_self _ _)
            | cons e t5 =>
              cases t5 with
              | nil =>
                have hc2 : (if strcaseeq b "s3" = false then Except.error NC_EURL
                            else Except.ok (some a, some c, none, NCS3SVC.NCS3)) =
                    Except.ok (b0, r0, h0, svc) := hc
                split_ifs at hc2
                · injection hc2 with hq
                  injection hq with he1 hq2
                  injection hq2 with he2 hq3
                  injection hq3 with he3 he4
                  subst he1
                  subst he2
                  subst he3
                  subst he4
                  refine ⟨?_, ?_, fun hsvc => NCS3SVC.noConfusion hsvc⟩
                  · intro rr hrr
                    injection hrr with he
                    subst he
                    exact List.mem_cons_of_mem a
                      (List.mem_cons_of_mem b (List.mem_cons_self _ _))
                  · intro bb hbb
                    injection hbb with he
                    subst he
                    exact List.mem_cons_self _ _
              | cons f t6 => exact Except.noConfusion hc
  · injection hc with hq
    injection hq with he1 hq2
    injection hq2 with he2 hq3
    injection hq3 with he3 he4
    subst he1
    subst he2
    subst he3
    subst he4
    exact ⟨fun rr hrr => Option.noConfusion hrr, fun bb hbb => Option.noConfusion hbb,
           fun hsvc => NCS3SVC.noConfusion hsvc⟩
  · injection hc with hq
    injection hq with he1 hq2
    injection hq2 with he2 hq3
    injection hq3 with he3 he4
    subst he1
    subst he2
    subst he3
    subst he4
    exact ⟨fun rr hrr => Option.noConfusion hrr, fun bb hbb => Option.noConfusion hbb,
           fun hsvc => rfl⟩

theorem regionResolve_ok_cases (r0 : Option String) (info : NCS3INFO)
    (dflt : Int × Option String) (reg : String)
    (hr : regionResolve r0 (some info) dflt = Except.ok (some reg)) :
    r0 = some reg ∨
    (r0 = none ∧ info.region = some reg) ∨
    (r0 = none ∧ info.region = none ∧ dflt.2 = some reg) := by
  cases r0 with
  | some rr =>
    injection hr with hq
    injection hq with he
    subst he
    exact Or.inl rfl
  | none =>
    cases hir : info.region with
    | some rr =>
      simp only [regionResolve, nulldup, hir] at hr
      injection hr with hq
      injection hq with he
      subst he
      exact Or.inr (Or.inl ⟨rfl, rfl⟩)
    | none =>
      simp only [regionResolve, nulldup, hir] at hr
      split_ifs at hr
      injection hr with hq
      exact Or.inr (Or.inr ⟨rfl, rfl, hq⟩)

theorem bucketResolve_ok_cases (b0 : Option String) (segs : List String)
    (info : NCS3INFO) (bk : String) (rest : List String)
    (hb : bucketResolve b0 segs (some info) = (some bk, rest)) :
    (b0 = some bk ∧ rest = segs) ∨
    (b0 = none ∧ segs = bk :: rest) ∨
    (b0 = none ∧ segs = [] ∧ rest = [] ∧ info.bucket = some bk) := by
  cases b0 with
  | some bb =>
    injection hb with h1 h2
    injection h1 with he
    subst he
    exact Or.inl ⟨rfl, h2.symm⟩
  | none =>
    cases segs with
    | cons p t =>
      injection hb with h1 h2
      injection h1 with he
      subst he
      subst h2
      exact Or.inr (Or.inl ⟨rfl, rfl⟩)
    | nil =>
      cases hib : info.bucket with
      | some bb =>
        simp only [bucketResolve, nulldup, hib] at hb
        injection hb with h1 h2
        injection h1 with he
        subst he
        subst h2
        exact Or.inr (Or.inr ⟨rfl, rfl, rfl, rfl⟩)
      | none =>
        simp only [bucketResolve, nulldup, hib] at hb
        injection hb with h1 h2
        exact Option.noConfusion h1

theorem processFinish_stat (r : RebuildResult) : (processFinish r).stat = r.stat := by
  unfold processFinish
  split
  · split_ifs with h
    · exact h.symm
    · rfl
  · rfl

/-- Claim C8 counterexample: a successful NC_s3urlprocess run can violate
the stated invariant: with prior region set to the empty string and URL
s3://mybucket/mybucket/x the build succeeds, yet the resulting region is
the empty string (not non-empty) and the rootkey mybucket/x has the
bucket mybucket as its first slash-separated segment. -/
theorem claim_C8_counterexample :
    (NC_s3urlprocess (NC_NOERR, some "p") (NC_NOERR, some "us-east-1")
      (some ⟨"s3", some "mybucket", some "/mybucket/x", none, none, [],
             "s3://mybucket/mybucket/x"⟩)
      (some ⟨none, some "", none, none, none, NCS3SVC.NCS3UNK⟩)).stat = NC_NOERR ∧
    (NC_s3urlprocess (NC_NOERR, some "p") (NC_NOERR, some "us-east-1")
      (some ⟨"s3", some "mybucket", some "/mybucket/x", none, none, [],
             "s3://mybucket/mybucket/x"⟩)
      (some ⟨none, some "", none, none, none, NCS3SVC.NCS3UNK⟩)).s3 =
      some ⟨some "s3..amazonaws.com", some "", some "mybucket", some "mybucket/x",
            some "p", NCS3SVC.NCS3⟩ ∧
    (NC_split_delim (some "mybucket/x") '/').head? = some "mybucket" := by
  refine ⟨by decide, by decide, by decide⟩

/-- Claim C8 (amended): after every successful NC_s3urlprocess run whose
prior descriptor carries only non-empty (and slash-free) region/bucket
values, whose default-region resolver yields a non-empty region, and
whose URL host contains no slash, the descriptor satisfies: region and
bucket are non-empty; host equals the canonical host of the rebuilt URL
(s3.(region).amazonaws.com for the Amazon service, the fixed Google host
for Google, the passed-through input host otherwise); and rootkey is the
slash-join of the canonical path's segments after its leading bucket
segment is removed (it may still begin with a segment textually equal to
the bucket when the object path repeats the bucket name). -/
theorem claim_C8_descriptor_invariant (profileRes dflt : Int × Option String)
    (url : NCURI) (info : NCS3INFO)
    (H1 : ∀ rr, info.region = some rr → rr ≠ "")
    (H2 : ∀ bb, info.bucket = some bb → bb ≠ "" ∧ '/' ∉ bb.data)
    (H3 : ∀ rr, dflt.2 = some rr → rr ≠ "")
    (H4 : ∀ hh, url.host = some hh → '/' ∉ hh.data)
    (hst : (NC_s3urlprocess profileRes dflt (some url) (some info)).stat = NC_NOERR) :
    ∃ url2 s3f reg bk rest,
      (NC_s3urlprocess profileRes dflt (some url) (some info)).newurl = some url2 ∧
      (NC_s3urlprocess profileRes dflt (some url) (some info)).s3 = some s3f ∧
      s3f.region = some reg ∧ reg ≠ "" ∧
      s3f.bucket = some bk ∧ bk ≠ "" ∧
      s3f.host = url2.host ∧
      (s3f.svc = NCS3SVC.NCS3 → url2.host = some ("s3." ++ reg ++ ".amazonaws.com")) ∧
      (s3f.svc = NCS3SVC.NCS3GS → url2.host = some GOOGLEHOST) ∧
      (s3f.svc = NCS3SVC.NCS3UNK → url2.host = url.host) ∧
      NC_split_delim url2.path '/' = bk :: rest ∧
      s3f.rootkey = some (NC_join rest) := by
  by_cases hpr : profileRes.1 = NC_NOERR
  · rw [process_eq profileRes dflt url info hpr] at hst ⊢
    have hr0 : (NC_s3urlrebuild dflt (some url)
        (some { info with profile := some (profileOf profileRes.2) })).stat = NC_NOERR :=
      (processFinish_stat _).symm.trans hst
    obtain ⟨h2, b02, r02, h02, svc2, region2, bucket2, rest2, hh2, hne2, hcl2, hreg2, hbk2,
            hres⟩ := rebuild_success_inv dflt url _ hr0
    have hclinv := classify_ok_inv url.protocol h2 (NC_split_delim (some h2) '.')
      b02 r02 h02 svc2 hcl2
    have hslash2 : '/' ∉ h2.data := H4 h2 hh2
    have hregfact : region2 ≠ "" := by
      rcases regionResolve_ok_cases r02 _ dflt region2 hreg2 with hA | ⟨_, hB⟩ | ⟨_, _, hC⟩
      · have hmem := hclinv.1 region2 hA
        exact (NC_split_delim_mem_opt (some h2) '.' region2 hmem).1
      · exact H1 region2 hB
      · exact H3 region2 hC
    have hbkfact : bucket2 ≠ "" ∧ '/' ∉ bucket2.data := by
      rcases bucketResolve_ok_cases b02 (NC_split_delim url.path '/') _ bucket2 rest2 hbk2 with
        ⟨hA, _⟩ | ⟨_, hB⟩ | ⟨_, _, _, hC⟩
      · have hmem := hclinv.2.1 bucket2 hA
        refine ⟨(NC_split_delim_mem_opt (some h2) '.' bucket2 hmem).1, ?_⟩
        intro hsl
        exact hslash2 (NC_split_delim_mem_chars h2 '.' bucket2 hmem '/' hsl)
      · have hmem : bucket2 ∈ NC_split_delim url.path '/' := by
          rw [hB]
          exact List.mem_cons_self _ _
        exact NC_split_delim_mem_opt url.path '/' bucket2 hmem
      · exact H2 bucket2 hC
    have hrestfact : ∀ s ∈ rest2, s ≠ "" ∧ '/' ∉ s.data := by
      rcases bucketResolve_ok_cases b02 (NC_split_delim url.path '/') _ bucket2 rest2 hbk2 with
        ⟨_, hA⟩ | ⟨_, hB⟩ | ⟨_, _, hC, _⟩
      · intro s hs
        exact NC_split_delim_mem_opt url.path '/' s (hA ▸ hs)
      · intro s hs
        have hmem : s ∈ NC_split_delim url.path '/' := by
          rw [hB]
          exact List.mem_cons_of_mem _ hs
        exact NC_split_delim_mem_opt url.path '/' s hmem
      · intro s hs
        rw [hC] at hs
        exact absurd hs (List.not_mem_nil s)
    have hsplit2 : NC_split_delim (some ("/" ++ bucket2 ++ slashCat rest2)) '/' =
        bucket2 :: rest2 :=
      split_canonPath bucket2 rest2 hbkfact.1 hbkfact.2 hrestfact
    rw [hres]
    refine ⟨_, _, region2, bucket2, rest2, rfl, rfl, rfl, hregfact, rfl, hbkfact.1, rfl,
            ?_, ?_, ?_, ?_, ?_⟩
    · intro hsvc
      have hsvc2 : svc2 = NCS3SVC.NCS3 := hsvc
      show some (canonHost svc2 region2 h02) = _
      rw [hsvc2]
      rfl
    · intro hsvc
      have hsvc2 : svc2 = NCS3SVC.NCS3GS := hsvc
      show some (canonHost svc2 region2 h02) = _
      rw [hsvc2]
      rfl
    · intro hsvc
      have hsvc2 : svc2 = NCS3SVC.NCS3UNK := hsvc
      show some (canonHost svc2 region2 h02) = _
      rw [hsvc2, hclinv.2.2 hsvc2, hh2]
      rfl
    · show NC_split_delim (some ("/" ++ bucket2 ++ slashCat rest2)) '/' = _
      exact hsplit2
    · show some (NC_join (NC_split_delim (some ("/" ++ bucket2 ++ slashCat rest2)) '/').tail) = _
      rw [hsplit2]
      rfl
  · exfalso
    have hproc : NC_s3urlprocess profileRes dflt (some url) (some info) =
        ⟨profileRes.1, none, some info⟩ := by
      simp only [NC_s3urlprocess]
      rw [if_pos hpr]
    rw [hproc] at hst
    exact hpr hst

theorem claim_C2_idempotent_witness :
    ("us-west-2" ≠ "" ∧ '.' ∉ "us-west-2".data ∧ "mybucket" ≠ "" ∧ '/' ∉ "mybucket".data ∧
     (∀ s ∈ ["a", "b", "c"], s ≠ "" ∧ '/' ∉ s.data)) ∧
    NC_s3urlrebuild (NC_NOERR, some "us-east-1")
      (some ⟨"https", some ("s3." ++ "us-west-2" ++ ".amazonaws.com"),
             some ("/" ++ "mybucket" ++ slashCat ["a", "b", "c"]), none, none, [],
             "https://" ++ ("s3." ++ "us-west-2" ++ ".amazonaws.com") ++
               ("/" ++ "mybucket" ++ slashCat ["a", "b", "c"])⟩)
      (some ⟨none, none, none, none, none, NCS3SVC.NCS3UNK⟩) =
    ⟨NC_NOERR,
     some ⟨"https", some ("s3." ++ "us-west-2" ++ ".amazonaws.com"),
           some ("/" ++ "mybucket" ++ slashCat ["a", "b", "c"]), none, none, [],
           "https://" ++ ("s3." ++ "us-west-2" ++ ".amazonaws.com") ++
             ("/" ++ "mybucket" ++ slashCat ["a", "b", "c"])⟩,
     some ⟨none, some "us-west-2", some "mybucket", none, none, NCS3SVC.NCS3⟩,
     some ⟨"https", some ("s3." ++ "us-west-2" ++ ".amazonaws.com"),
           some ("/" ++ "mybucket" ++ slashCat ["a", "b", "c"]), none, none, [],
           "https://" ++ ("s3." ++ "us-west-2" ++ ".amazonaws.com") ++
             ("/" ++ "mybucket" ++ slashCat ["a", "b", "c"])⟩⟩ :=
  ⟨⟨by decide, by decide, by decide, by decide, by decide⟩,
   claim_C2_idempotent "us-west-2" "mybucket" ["a", "b", "c"] []
     ⟨none, none, none, none, none, NCS3SVC.NCS3UNK⟩ (NC_NOERR, some "us-east-1")
     (by decide) (by decide) (by decide) (by decide) (by decide)⟩

theorem claim_C3_four_label_witness :
    ("s3" ≠ "" ∧ '.' ∉ "s3".data ∧ "eu-west-1" ≠ "" ∧ '.' ∉ "eu-west-1".data ∧
     strcaseeq "s3" "s3" = true) ∧
    ((NC_s3urlrebuild (NC_NOERR, some "us-east-1")
        (some ⟨"https", some ("s3" ++ "." ++ "eu-west-1" ++ ".amazonaws.com"), some "/a/b/c",
               none, none, [], ""⟩)
        (some ⟨none, some "us-west-2", some "bk", none, none, NCS3SVC.NCS3UNK⟩)).stat =
          NC_NOERR ∧
      ((NC_s3urlrebuild (NC_NOERR, some "us-east-1")
        (some ⟨"https", some ("s3" ++ "." ++ "eu-west-1" ++ ".amazonaws.com"), some "/a/b/c",
               none, none, [], ""⟩)
        (some ⟨none, some "us-west-2", some "bk", none, none, NCS3SVC.NCS3UNK⟩)).newurl.map
          NCURI.host) = some (some ("s3." ++ "eu-west-1" ++ ".amazonaws.com")) ∧
      (NC_s3urlrebuild (NC_NOERR, some "us-east-1")
        (some ⟨"https", some ("s3" ++ "." ++ "eu-west-1" ++ ".amazonaws.com"), some "/a/b/c",
               none, none, [], ""⟩)
        (some ⟨none, some "us-west-2", some "bk", none, none, NCS3SVC.NCS3UNK⟩)).s3 =
          some ⟨none, some "eu-west-1", some "a", none, none, NCS3SVC.NCS3⟩) :=
  ⟨⟨by decide, by decide, by decide, by decide, by decide⟩,
   (claim_C3_four_label "s3" "eu-west-1" (NC_NOERR, some "us-east-1")
     (by decide) (by decide) (by decide) (by decide)).1 (by decide)⟩

theorem claim_C4_region_priority_witness :
    ((⟨"https", some "s3.us-west-2.amazonaws.com", some "/bk/a", none, none, [],
       "https://s3.us-west-2.amazonaws.com/bk/a"⟩ : NCURI).host =
        some "s3.us-west-2.amazonaws.com" ∧
     "s3.us-west-2.amazonaws.com" ≠ "" ∧
     s3HostClassify "https" "s3.us-west-2.amazonaws.com"
       (NC_split_delim (some "s3.us-west-2.amazonaws.com") '.') =
       Except.ok (none, some "us-west-2", none, NCS3SVC.NCS3) ∧
     (NC_s3urlrebuild (NC_NOERR, some "us-east-1")
       (some ⟨"https", some "s3.us-west-2.amazonaws.com", some "/bk/a", none, none, [],
              "https://s3.us-west-2.amazonaws.com/bk/a"⟩)
       (some ⟨none, none, none, none, none, NCS3SVC.NCS3UNK⟩)).stat = NC_NOERR) ∧
    (∃ i2, (NC_s3urlrebuild (NC_NOERR, some "us-east-1")
       (some ⟨"https", some "s3.us-west-2.amazonaws.com", some "/bk/a", none, none, [],
              "https://s3.us-west-2.amazonaws.com/bk/a"⟩)
       (some ⟨none, none, none, none, none, NCS3SVC.NCS3UNK⟩)).s3 = some i2 ∧
       i2.region = some "us-west-2") :=
  ⟨⟨rfl, by decide, rfl, by decide⟩,
   (claim_C4_region_priority (NC_NOERR, some "us-east-1")
     ⟨"https", some "s3.us-west-2.amazonaws.com", some "/bk/a", none, none, [],
      "https://s3.us-west-2.amazonaws.com/bk/a"⟩
     ⟨none, none, none, none, none, NCS3SVC.NCS3UNK⟩
     "s3.us-west-2.amazonaws.com" none (some "us-west-2") none NCS3SVC.NCS3
     rfl (by decide) rfl).1 "us-west-2" rfl (by decide)⟩

theorem claim_C5_bucket_priority_witness :
    ((⟨"https", some "s3.us-west-2.amazonaws.com", none, none, none, [],
       "https://s3.us-west-2.amazonaws.com"⟩ : NCURI).host =
        some "s3.us-west-2.amazonaws.com" ∧
     "s3.us-west-2.amazonaws.com" ≠ "" ∧
     s3HostClassify "https" "s3.us-west-2.amazonaws.com"
       (NC_split_delim (some "s3.us-west-2.amazonaws.com") '.') =
       Except.ok (none, some "us-west-2", none, NCS3SVC.NCS3) ∧
     regionResolve (some "us-west-2")
       (some ⟨none, none, none, none, none, NCS3SVC.NCS3UNK⟩) (NC_NOERR, some "us-east-1") =
       Except.ok (some "us-west-2") ∧
     NC_split_delim (⟨"https", some "s3.us-west-2.amazonaws.com", none, none, none, [],
       "https://s3.us-west-2.amazonaws.com"⟩ : NCURI).path '/' = [] ∧
     (⟨none, none, none, none, none, NCS3SVC.NCS3UNK⟩ : NCS3INFO).bucket = none) ∧
    NC_s3urlrebuild (NC_NOERR, some "us-east-1")
      (some ⟨"https", some "s3.us-west-2.amazonaws.com", none, none, none, [],
             "https://s3.us-west-2.amazonaws.com"⟩)
      (some ⟨none, none, none, none, none, NCS3SVC.NCS3UNK⟩) =
    ⟨NC_ES3, none, some ⟨none, none, none, none, none, NCS3SVC.NCS3UNK⟩,
     some ⟨"https", some "s3.us-west-2.amazonaws.com", none, none, none, [],
           "https://s3.us-west-2.amazonaws.com"⟩⟩ :=
  ⟨⟨rfl, by decide, rfl, rfl, rfl, rfl⟩,
   (claim_C5_bucket_priority (NC_NOERR, some "us-east-1")
     ⟨"https", some "s3.us-west-2.amazonaws.com", none, none, none, [],
      "https://s3.us-west-2.amazonaws.com"⟩
     ⟨none, none, none, none, none, NCS3SVC.NCS3UNK⟩
     "s3.us-west-2.amazonaws.com" none (some "us-west-2") none NCS3SVC.NCS3 "us-west-2"
     rfl (by decide) rfl rfl).2.2.2 rfl rfl rfl⟩

theorem claim_C6_no_mutation_witness :
    (NC_s3urlrebuild (NC_NOERR, some "us-east-1")
      (some ⟨"https", some "s3.us-west-2.amazonaws.com", some "/mybucket/a/b/c",
             some "q", some "f", ["m"], "x"⟩) none).urlFinal =
      some ⟨"https", some "s3.us-west-2.amazonaws.com", some "/mybucket/a/b/c",
            some "q", some "f", ["m"], "x"⟩ ∧
    ((⟨"https", some "s3.us-west-2.amazonaws.com", some "/mybucket/a/b/c", some "q", some "f",
       ["m"], "https://s3.us-west-2.amazonaws.com/mybucket/a/b/c?q#f"⟩ : NCURI).protocol =
       "https" ∧
     (⟨"https", some "s3.us-west-2.amazonaws.com", some "/mybucket/a/b/c", some "q", some "f",
       ["m"], "https://s3.us-west-2.amazonaws.com/mybucket/a/b/c?q#f"⟩ : NCURI).query =
       (⟨"https", some "s3.us-west-2.amazonaws.com", some "/mybucket/a/b/c",
         some "q", some "f", ["m"], "x"⟩ : NCURI).query ∧
     (⟨"https", some "s3.us-west-2.amazonaws.com", some "/mybucket/a/b/c", some "q", some "f",
       ["m"], "https://s3.us-west-2.amazonaws.com/mybucket/a/b/c?q#f"⟩ : NCURI).fragment =
       (⟨"https", some "s3.us-west-2.amazonaws.com", some "/mybucket/a/b/c",
         some "q", some "f", ["m"], "x"⟩ : NCURI).fragment ∧
     (⟨"https", some "s3.us-west-2.amazonaws.com", some "/mybucket/a/b/c", some "q", some "f",
       ["m"], "https://s3.us-west-2.amazonaws.com/mybucket/a/b/c?q#f"⟩ : NCURI).mode =
       (⟨"https", some "s3.us-west-2.amazonaws.com", some "/mybucket/a/b/c",
         some "q", some "f", ["m"], "x"⟩ : NCURI).mode) :=
  ⟨(claim_C6_no_mutation (NC_NOERR, some "us-east-1")
      (some ⟨"https", some "s3.us-west-2.amazonaws.com", some "/mybucket/a/b/c",
             some "q", some "f", ["m"], "x"⟩) none).1,
   (claim_C6_no_mutation (NC_NOERR, some "us-east-1")
      (some ⟨"https", some "s3.us-west-2.amazonaws.com", some "/mybucket/a/b/c",
             some "q", some "f", ["m"], "x"⟩) none).2
     ⟨"https", some "s3.us-west-2.amazonaws.com", some "/mybucket/a/b/c",
      some "q", some "f", ["m"], "x"⟩
     ⟨"https", some "s3.us-west-2.amazonaws.com", some "/mybucket/a/b/c", some "q", some "f",
      ["m"], "https://s3.us-west-2.amazonaws.com/mybucket/a/b/c?q#f"⟩
     rfl (by decide)⟩

theorem claim_C9_failure_no_url_witness :
    ((NC_s3urlprocess (NC_NOERR, some "p") (NC_NOERR, some "us-east-1")
       (some ⟨"https", some "a.b.c.d.e.amazonaws.com", some "/x", none, none, [],
              "https://a.b.c.d.e.amazonaws.com/x"⟩)
       (some ⟨none, none, none, none, none, NCS3SVC.NCS3UNK⟩)).stat ≠ NC_NOERR) ∧
    ((NC_s3urlprocess (NC_NOERR, some "p") (NC_NOERR, some "us-east-1")
       (some ⟨"https", some "a.b.c.d.e.amazonaws.com", some "/x", none, none, [],
              "https://a.b.c.d.e.amazonaws.com/x"⟩)
       (some ⟨none, none, none, none, none, NCS3SVC.NCS3UNK⟩)).newurl = none ∧
     ((NC_s3urlprocess (NC_NOERR, some "p") (NC_NOERR, some "us-east-1")
        (some ⟨"https", some "a.b.c.d.e.amazonaws.com", some "/x", none, none, [],
               "https://a.b.c.d.e.amazonaws.com/x"⟩)
        (some ⟨none, none, none, none, none, NCS3SVC.NCS3UNK⟩)).s3 =
        some ⟨none, none, none, none, none, NCS3SVC.NCS3UNK⟩ ∨
      (∃ info p, (some ⟨none, none, none, none, none, NCS3SVC.NCS3UNK⟩ :
                    Option NCS3INFO) = some info ∧
         (NC_s3urlprocess (NC_NOERR, some "p") (NC_NOERR, some "us-east-1")
           (some ⟨"https", some "a.b.c.d.e.amazonaws.com", some "/x", none, none, [],
                  "https://a.b.c.d.e.amazonaws.com/x"⟩)
           (some ⟨none, none, none, none, none, NCS3SVC.NCS3UNK⟩)).s3 =
           some { info with profile := some p }))) :=
  ⟨by decide,
   claim_C9_failure_no_url (NC_NOERR, some "p") (NC_NOERR, some "us-east-1")
     (some ⟨"https", some "a.b.c.d.e.amazonaws.com", some "/x", none, none, [],
            "https://a.b.c.d.e.amazonaws.com/x"⟩)
     (some ⟨none, none, none, none, none, NCS3SVC.NCS3UNK⟩) (by decide)⟩

theorem claim_C8_descriptor_invariant_witness :
    ((∀ rr, (⟨none, none, none, none, none, NCS3SVC.NCS3UNK⟩ : NCS3INFO).region = some rr →
        rr ≠ "") ∧
     (∀ bb, (⟨none, none, none, none, none, NCS3SVC.NCS3UNK⟩ : NCS3INFO).bucket = some bb →
        bb ≠ "" ∧ '/' ∉ bb.data) ∧
     (∀ rr, ((NC_NOERR, some "us-east-1") : Int × Option String).2 = some rr → rr ≠ "") ∧
     (∀ hh, (⟨"https", some "s3.us-west-2.amazonaws.com", some "/mybucket/a/b/c", none, none,
              [], "https://s3.us-west-2.amazonaws.com/mybucket/a/b/c"⟩ : NCURI).host =
                some hh → '/' ∉ hh.data) ∧
     (NC_s3urlprocess (NC_NOERR, some "p") (NC_NOERR, some "us-east-1")
       (some ⟨"https", some "s3.us-west-2.amazonaws.com", some "/mybucket/a/b/c", none, none,
              [], "https://s3.us-west-2.amazonaws.com/mybucket/a/b/c"⟩)
       (some ⟨none, none, none, none, none, NCS3SVC.NCS3UNK⟩)).stat = NC_NOERR) ∧
    (∃ url2 s3f reg bk rest,
      (NC_s3urlprocess (NC_NOERR, some "p") (NC_NOERR, some "us-east-1")
        (some ⟨"https", some "s3.us-west-2.amazonaws.com", some "/mybucket/a/b/c", none, none,
               [], "https://s3.us-west-2.amazonaws.com/mybucket/a/b/c"⟩)
        (some ⟨none, none, none, none, none, NCS3SVC.NCS3UNK⟩)).newurl = some url2 ∧
      (NC_s3urlprocess (NC_NOERR, some "p") (NC_NOERR, some "us-east-1")
        (some ⟨"https", some "s3.us-west-2.amazonaws.com", some "/mybucket/a/b/c", none, none,
               [], "https://s3.us-west-2.amazonaws.com/mybucket/a/b/c"⟩)
        (some ⟨none, none, none, none, none, NCS3SVC.NCS3UNK⟩)).s3 = some s3f ∧
      s3f.region = some reg ∧ reg ≠ "" ∧
      s3f.bucket = some bk ∧ bk ≠ "" ∧
      s3f.host = url2.host ∧
      (s3f.svc = NCS3SVC.NCS3 → url2.host = some ("s3." ++ reg ++ ".amazonaws.com")) ∧
      (s3f.svc = NCS3SVC.NCS3GS → url2.host = some GOOGLEHOST) ∧
      (s3f.svc = NCS3SVC.NCS3UNK → url2.host =
        (⟨"https", some "s3.us-west-2.amazonaws.com", some "/mybucket/a/b/c", none, none,
          [], "https://s3.us-west-2.amazonaws.com/mybucket/a/b/c"⟩ : NCURI).host) ∧
      NC_split_delim url2.path '/' = bk :: rest ∧
      s3f.rootkey = some (NC_join rest)) :=
  ⟨⟨fun rr h => Option.noConfusion h,
    fun bb h => Option.noConfusion h,
    fun rr h => by
      injection h with he
      subst he
      decide,
    fun hh h => by
      injection h with he
      subst he
      decide,
    by decide⟩,
   claim_C8_descriptor_invariant (NC_NOERR, some "p") (NC_NOERR, some "us-east-1")
     ⟨"https", some "s3.us-west-2.amazonaws.com", some "/mybucket/a/b/c", none, none,
      [], "https://s3.us-west-2.amazonaws.com/mybucket/a/b/c"⟩
     ⟨none, none, none, none, none, NCS3SVC.NCS3UNK⟩
     (fun rr h => Option.noConfusion h)
     (fun bb h => Option.noConfusion h)
     (fun rr h => by
       injection h with he
       subst he
       decide)
     (fun hh h => by
       injection h with he
       subst he
       decide)
     (by decide)⟩
